import Mathlib

/-!
Detection / tracking arbitration of `src/ssd/detect.cpp`

A shallow embedding of the copy loop of `Detector::Detect`, of
`DetectionTrackingDisagree`, of the selection loop and the branch chain of
`DetectionTrackingProcessFrame`, and of the frame loop of `processDetectionTracking`.

Conventions of the embedding.

* `float` / `double` values are exact rationals (`ℚ`); a decimal literal of the source
  stands for its decimal value (`0.3` is `3/10`).  Rounding is not represented.  Where
  a property turns on which values a `float` can hold, `isFloat` says so; on `float`
  scores the test of line 382 against 3/10 agrees with the test against the `double`
  literal (`float_above_three_tenths`).
* `int` values are `Int`; the dimensions of a `cv::Mat` are `Nat`.
* A detection record `vector<float>` is a `List ℚ`; the detection list is a
  `List (List ℚ)`.
* `CHECK` failures abort the process: the frame function returns `none`.
* The tracker and the controller are external objects.  The calls made on them are
  recorded, in program order, in a list of `Effect`s; the box that `tracker.Track` writes
  into `bbox_estimate` is an input of the frame function.
* `int` arithmetic wraps around to 32 bits (`int32`); a division of `double`s by zero is
  followed into its infinite or NaN result where the source can reach it
  (`stop_area_exceeded`).
* Drawing, `imshow` and video writing have no influence on the tracker calls, the flag
  `tracker_initialised` or the command sent, and are left out.
-/

namespace PersonFollowing

/-! ## Constants (`#define`s, lines 53-58) -/

def DETECTION_TRACKING_DISAGREE_TH : ℚ := 7 / 10
def PERSON_LABEL : Int := 15
def PERSON_GOOD_CONFIDENCE_TH : ℚ := 5 / 10
def PERSON_EXIST_CONFIDENCE_TH : ℚ := 3 / 10
def STOP_AREA_TH : ℚ := 6 / 10

/-! ## Global command variables (lines 61-65) -/

/-- The five global command variables `turnval`, `speedval`, `sitval`, `standval`,
`walkval`. -/
structure Globals where
  turnval : ℚ
  speedval : ℚ
  sitval : Int
  standval : Int
  walkval : Int
  deriving DecidableEq, Repr

/-- Their initialisers: all five are `0`. -/
def initialGlobals : Globals :=
  { turnval := 0, speedval := 0, sitval := 0, standval := 0, walkval := 0 }

/-! ## External types -/

/-- The part of `cv::Mat` the frame function reads: the dimensions and whether a data
buffer is attached. -/
structure Mat where
  rows : Nat
  cols : Nat
  hasData : Bool
  deriving DecidableEq, Repr

/-- The method `cv::Mat::empty()`: no data buffer, or no element. -/
def Mat.empty (img : Mat) : Bool :=
  !img.hasData || img.rows * img.cols == 0

/-- The four edges of a `BoundingBox` (`x1_`, `y1_`, `x2_`, `y2_`). -/
structure BoundingBox where
  x1_ : ℚ
  y1_ : ℚ
  x2_ : ℚ
  y2_ : ℚ
  deriving DecidableEq, Repr

/-- Modelled from the spec: `BoundingBox::compute_area` is declared in
`helper/bounding_box.h`, which is not among the sources.  Spec 4.1:
`Area()` is `max(0, x2 - x1) * max(0, y2 - y1)`. -/
def BoundingBox.compute_area (b : BoundingBox) : ℚ :=
  max 0 (b.x2_ - b.x1_) * max 0 (b.y2_ - b.y1_)

/-- Modelled from the spec: the area of the intersection rectangle used by the
"standard rectangle IOU" of spec 4.1 (the class is declared in
`helper/bounding_box.h`, which is not among the sources). -/
def BoundingBox.compute_intersection (a b : BoundingBox) : ℚ :=
  max 0 (min a.x2_ b.x2_ - max a.x1_ b.x1_) * max 0 (min a.y2_ b.y2_ - max a.y1_ b.y1_)

/-- Modelled from the spec: `BoundingBox::compute_IOU` is declared in
`helper/bounding_box.h`, which is not among the sources.  Spec 3 / 4.1: the ratio of
intersection area to union area, `0` when the union area is `0`. -/
def BoundingBox.compute_IOU (a b : BoundingBox) : ℚ :=
  let inter := a.compute_intersection b
  let union := a.compute_area + b.compute_area - inter
  if union = 0 then 0 else inter / union

/-- A call made on the tracker or on the controller. -/
inductive Effect where
  | Init (box : BoundingBox)
  | Track
  | SendtoController (turn speed : ℚ) (sit stand walk : Int)
  deriving DecidableEq, Repr

/-! ## `DetectionTrackingDisagree` (lines 269-274) -/

def DetectionTrackingDisagree (tracked_bbox detection_bbox : BoundingBox) : Bool :=
  if tracked_bbox.compute_IOU detection_bbox < DETECTION_TRACKING_DISAGREE_TH then
    true
  else
    false

/-! ## The selection loop (lines 287-312) -/

/-- The conversion `static_cast<int>` of a `float`: truncation towards zero. -/
def static_cast_int (x : ℚ) : Int :=
  Int.tdiv x.num x.den

/-- The three locals the loop updates. -/
structure Selection where
  closest_person_detection_id : Int
  max_region : ℚ
  best_person_confidence : ℚ
  deriving DecidableEq, Repr

/-- Their values before the loop (lines 287-289). -/
def Selection.start : Selection :=
  { closest_person_detection_id := -1, max_region := -1, best_person_confidence := -1 }

/-- Field `k` of a record, `d[k]`; read only after `CHECK_EQ(d.size(), 7)`. -/
def field (d : List ℚ) (k : Nat) : ℚ :=
  d.getD k 0

/-- The expression of line 298. -/
def this_region (img : Mat) (d : List ℚ) : ℚ :=
  (field d 5 * img.cols - field d 3 * img.cols) * (field d 6 * img.rows - field d 4 * img.rows)

/-- One iteration of the loop (lines 292-311) on record `d` at index `i`; `none` when
`CHECK_EQ(d.size(), 7)` fails. -/
def loopBody (img : Mat) (confidence_threshold : ℚ) (i : Nat) (d : List ℚ) (s : Selection) :
    Option Selection :=
  if d.length ≠ 7 then none
  else
    let score := field d 2
    if score ≥ confidence_threshold then
      let s1 :=
        if static_cast_int (field d 1) = PERSON_LABEL ∧ this_region img d > s.max_region
            ∧ score > PERSON_GOOD_CONFIDENCE_TH then
          { s with max_region := this_region img d, closest_person_detection_id := (i : Int) }
        else s
      let s2 :=
        if static_cast_int (field d 1) = PERSON_LABEL ∧ score > s1.best_person_confidence then
          { s1 with best_person_confidence := score }
        else s1
      some s2
    else some s

/-- The loop of line 291, run on the records from index `i` on. -/
def selectionLoop (img : Mat) (confidence_threshold : ℚ) :
    List (List ℚ) → Nat → Selection → Option Selection
  | [], _, s => some s
  | d :: ds, i, s =>
    match loopBody img confidence_threshold i d s with
    | none => none
    | some s' => selectionLoop img confidence_threshold ds (i + 1) s'

/-! ## `DetectionTrackingProcessFrame` (lines 276-422) -/

/-- What a frame leaves behind: the tracker and controller calls in program order, the
flag `*tracker_initialised`, and the global command variables. -/
structure Outcome where
  effects : List Effect
  tracker_initialised : Bool
  globals : Globals
  deriving DecidableEq, Repr

/-- The pixel box built from a record at lines 321-324 and 349-352. -/
def pixelBox (img : Mat) (d : List ℚ) : BoundingBox :=
  { x1_ := field d 3 * img.cols, y1_ := field d 4 * img.rows,
    x2_ := field d 5 * img.cols, y2_ := field d 6 * img.rows }

/-- The value of an `int` expression whose exact value is `x`: wrap-around to 32 bits,
two's complement. -/
def int32 (x : Int) : Int :=
  (x + 2147483648) % 4294967296 - 2147483648

/-- The value of `image_area` (lines 367 and 390): the product
`img_track.size().width * img_track.size().height` is formed in `int` and then widened to
`double`. -/
def image_area (img : Mat) : ℚ :=
  ((int32 ((img.cols : Int) * (img.rows : Int)) : Int) : ℚ)

/-- The value of `bbox_area_fraction` (lines 368 and 391) when `image_area` is not 0. -/
def bbox_area_fraction (img : Mat) (bbox_estimate : BoundingBox) : ℚ :=
  bbox_estimate.compute_area / image_area img

/-- The test `bbox_area_fraction > STOP_AREA_TH` of lines 369 and 392.  When `image_area`
is 0 the `double` quotient is +infinity for a positive area, which passes the test, and
NaN for a zero area, which fails it. -/
def stop_area_exceeded (img : Mat) (bbox_estimate : BoundingBox) : Bool :=
  if image_area img = 0 then decide (bbox_estimate.compute_area > 0)
  else decide (bbox_area_fraction img bbox_estimate > STOP_AREA_TH)

/-- The value of `turnval_update` before it is scaled (lines 376 and 399). -/
def turnval_update (img : Mat) (bbox_estimate : BoundingBox) : ℚ :=
  (bbox_estimate.x1_ + bbox_estimate.x2_) / (img.cols : ℚ) / 2 - 1 / 2

/-- The frame function.  `bbox_estimate` is the box `tracker.Track` returns on this frame
when it is called. -/
def DetectionTrackingProcessFrame (g : Globals) (img : Mat) (detections : List (List ℚ))
    (bbox_estimate : BoundingBox) (confidence_threshold : ℚ) (tracker_initialised : Bool) :
    Option Outcome :=
  if img.empty then none
  else
    match selectionLoop img confidence_threshold detections 0 Selection.start with
    | none => none
    | some s =>
      -- line 314 binds a reference; it is read only where the id is not -1
      let closest_person_detection := detections.getD s.closest_person_detection_id.toNat []
      if !tracker_initialised && s.closest_person_detection_id ≠ -1 then
        let new_init_box := pixelBox img closest_person_detection
        some { effects := [Effect.Init new_init_box], tracker_initialised := true, globals := g }
      else if tracker_initialised && s.closest_person_detection_id ≠ -1 then
        let detection_bbox := pixelBox img closest_person_detection
        let reinit :=
          if DetectionTrackingDisagree bbox_estimate detection_bbox
              && s.closest_person_detection_id ≠ -1 then
            [Effect.Init detection_bbox]
          else []
        let send :=
          if stop_area_exceeded img bbox_estimate = true then
            Effect.SendtoController g.turnval g.speedval g.sitval 1 g.walkval
          else
            Effect.SendtoController (turnval_update img bbox_estimate * 2) g.speedval g.sitval
              g.standval 1
        some { effects := Effect.Track :: (reinit ++ [send]),
               tracker_initialised := tracker_initialised, globals := g }
      else if tracker_initialised && s.best_person_confidence > PERSON_EXIST_CONFIDENCE_TH then
        let send :=
          if stop_area_exceeded img bbox_estimate = true then
            Effect.SendtoController g.turnval g.speedval g.sitval 1 g.walkval
          else
            Effect.SendtoController (turnval_update img bbox_estimate * 6) g.speedval g.sitval
              g.standval 1
        some { effects := [Effect.Track, send],
               tracker_initialised := tracker_initialised, globals := g }
      else
        some { effects := [Effect.SendtoController g.turnval g.speedval g.sitval 1 g.walkval],
               tracker_initialised := tracker_initialised, globals := g }

/-! ## The frame loop and the observations on a frame's calls -/

/-- Whether an effect is a command sent to the controller. -/
def Effect.isSend : Effect → Bool
  | Effect.SendtoController _ _ _ _ _ => true
  | _ => false

/-- The commands a frame sent, in order. -/
def sentCommands (es : List Effect) : List Effect :=
  es.filter Effect.isSend

/-- The calls a frame made on the tracker, in order. -/
def trackerCalls (es : List Effect) : List Effect :=
  es.filter (fun e => !e.isSend)

/-- One frame as the frame loop sees it: the image read, what `detector.Detect` returns on
it, and what `tracker.Track` returns on it when called. -/
structure FrameInput where
  img : Mat
  detections : List (List ℚ)
  bbox_estimate : BoundingBox

/-- The `while` loop of `processDetectionTracking` (lines 440-460) over the frames the
capture delivers; `o` holds the calls made so far and the current flag and globals. -/
def frameLoop (confidence_threshold : ℚ) : List FrameInput → Outcome → Option Outcome
  | [], o => some o
  | f :: fs, o =>
    match DetectionTrackingProcessFrame o.globals f.img f.detections f.bbox_estimate
        confidence_threshold o.tracker_initialised with
    | none => none
    | some o' =>
      frameLoop confidence_threshold fs
        { effects := o.effects ++ o'.effects, tracker_initialised := o'.tracker_initialised,
          globals := o'.globals }

/-- The function `processDetectionTracking` (lines 425-462): `tracker_initialised` starts
`false`, the globals hold their initialisers, and every frame goes through
`DetectionTrackingProcessFrame`.  (`controller.DyInit()` precedes the loop and is not
recorded.) -/
def processDetectionTracking (confidence_threshold : ℚ) (frames : List FrameInput) :
    Option Outcome :=
  frameLoop confidence_threshold frames
    { effects := [], tracker_initialised := false, globals := initialGlobals }

/-- A 640x480 frame with data. -/
def frame640x480 : Mat :=
  { rows := 480, cols := 640, hasData := true }

/-- A record `[image_id, label, score, xmin, ymin, xmax, ymax]` of image 0 with the person
label. -/
def personRecord (score xmin ymin xmax ymax : ℚ) : List ℚ :=
  [0, 15, score, xmin, ymin, xmax, ymax]

/-- Five detections of one frame: three good person detections of projected areas
12288, 24576 and 24576 in a 640x480 frame, a detection of another label covering the
frame, and a person detection of score 0.4 covering the frame. -/
def fiveDetections : List (List ℚ) :=
  [personRecord (9 / 10) (1 / 10) (1 / 10) (5 / 10) (2 / 10),
   personRecord (8 / 10) (1 / 10) (1 / 10) (3 / 10) (5 / 10),
   personRecord (9 / 10) (2 / 10) (1 / 10) (6 / 10) (3 / 10),
   [0, 7, 9 / 10, 0, 0, 1, 1],
   personRecord (4 / 10) 0 0 1 1]

/-! ## Predicates used to state the properties -/

/-- The test `static_cast<int>(d[1]) == PERSON_LABEL`. -/
def isPerson (d : List ℚ) : Prop :=
  static_cast_int (field d 1) = PERSON_LABEL

instance (d : List ℚ) : Decidable (isPerson d) := by
  unfold isPerson; infer_instance

/-- A detection that may become the closest one: a person whose score reaches the
confidence threshold and exceeds `PERSON_GOOD_CONFIDENCE_TH`. -/
def goodPerson (confidence_threshold : ℚ) (d : List ℚ) : Prop :=
  isPerson d ∧ field d 2 ≥ confidence_threshold ∧ field d 2 > PERSON_GOOD_CONFIDENCE_TH

instance (ct : ℚ) (d : List ℚ) : Decidable (goodPerson ct d) := by
  unfold goodPerson; infer_instance

/-- A value a `float` can hold: `m * 2^e` with an integer significand `m` of at most 24
bits.  (The exponent range is left open, which only admits more values.) -/
def isFloat (q : ℚ) : Prop :=
  ∃ (m e : Int), |m| < 16777216 ∧ q = m * (2 : ℚ) ^ e

/-- The exact value of the `double` literal `0.3` (line 57), the `double` nearest to
3/10: 5404319552844595 / 2^54. -/
def doubleLiteral_0_3 : ℚ :=
  5404319552844595 / 18014398509481984

/-- What the loop has established about `closest_person_detection_id` and `max_region`
after the records `pre`. -/
def ClosestInv (img : Mat) (ct : ℚ) (pre : List (List ℚ)) (s : Selection) : Prop :=
  (s.closest_person_detection_id = -1 ∧ s.max_region = -1 ∧
      ∀ d ∈ pre, goodPerson ct d → this_region img d ≤ -1) ∨
  (∃ (k : Nat) (d : List ℚ), s.closest_person_detection_id = (k : Int) ∧ pre[k]? = some d ∧
      goodPerson ct d ∧ s.max_region = this_region img d ∧ this_region img d > -1 ∧
      (∀ d' ∈ pre, goodPerson ct d' → this_region img d' ≤ this_region img d) ∧
      (∀ (j : Nat) (d' : List ℚ), j < k → pre[j]? = some d' → goodPerson ct d' →
        this_region img d' < this_region img d))

/-- What the loop has established about `best_person_confidence` after the records
`pre`. -/
def BestInv (ct : ℚ) (pre : List (List ℚ)) (s : Selection) : Prop :=
  (s.best_person_confidence = -1 ∨
      ∃ d ∈ pre, isPerson d ∧ field d 2 ≥ ct ∧ s.best_person_confidence = field d 2) ∧
  (∀ d ∈ pre, isPerson d → field d 2 ≥ ct → field d 2 ≤ s.best_person_confidence) ∧
  -1 ≤ s.best_person_confidence

/-! ## `Detector::Detect`: copying the output blob (lines 133-149) -/

/-- The loop of lines 138-147.  `result` is the part of the output blob the pointer
`result` still has in front of it (7 floats per record), `k` counts the iterations
left, and `detections` is the vector built so far. -/
def detectLoop : Nat → List ℚ → List (List ℚ) → List (List ℚ)
  | 0, _, detections => detections
  | k + 1, result, detections =>
    if result.getD 0 0 = -1 then
      detectLoop k (result.drop 7) detections
    else
      detectLoop k (result.drop 7) (detections ++ [result.take 7])

/-- The tail of `Detector::Detect` (lines 133-149): `result` is the data of the output
blob after the forward pass and `num_det` its height. -/
def Detector.Detect (result : List ℚ) (num_det : Nat) : List (List ℚ) :=
  detectLoop num_det result []

/-! ## The calls of a frame in program order, with the abort kept in the trace -/

/-- The state the frame function acts on: the calls made so far on the tracker and the
controller, and the flag `*tracker_initialised`. -/
structure Machine where
  calls : List Effect
  tracker_initialised : Bool
  deriving DecidableEq, Repr

/-- How a run of the frame function ends: a `CHECK` failed, or the function returned;
either way with the state reached at that point. -/
inductive Run where
  | aborted (m : Machine)
  | returned (m : Machine)
  deriving DecidableEq, Repr

/-- The macro `CHECK(c)`: go on when `c` holds, abort otherwise. -/
def CHECK (c : Bool) (m : Machine) (next : Machine → Run) : Run :=
  if c then next m else Run.aborted m

/-- A call on the tracker or the controller: appended to the calls made so far. -/
def Machine.call (m : Machine) (e : Effect) : Machine :=
  { m with calls := m.calls ++ [e] }

/-- The loop of lines 291-312 as a run: on every record the body `loopBody`, which is
`none` when `CHECK_EQ(d.size(), 7)` fails and otherwise updates the locals; no call is
made in the loop. -/
def selectionRun (img : Mat) (confidence_threshold : ℚ) :
    List (List ℚ) → Nat → Selection → Machine → (Machine → Selection → Run) → Run
  | [], _, s, m, next => next m s
  | d :: ds, i, s, m, next =>
    match loopBody img confidence_threshold i d s with
    | none => Run.aborted m
    | some s' => selectionRun img confidence_threshold ds (i + 1) s' m next

/-- The statements of `DetectionTrackingProcessFrame` in program order, started in state
`m`: the `CHECK` of line 278, the loop, then the branch chain of lines 319-411. -/
def DetectionTrackingProcessFrameRun (g : Globals) (img : Mat) (detections : List (List ℚ))
    (bbox_estimate : BoundingBox) (confidence_threshold : ℚ) (m : Machine) : Run :=
  CHECK (!img.empty) m fun m =>
    selectionRun img confidence_threshold detections 0 Selection.start m fun m s =>
      let closest_person_detection := detections.getD s.closest_person_detection_id.toNat []
      if !m.tracker_initialised && s.closest_person_detection_id ≠ -1 then
        let m1 := m.call (Effect.Init (pixelBox img closest_person_detection))
        Run.returned { m1 with tracker_initialised := true }
      else if m.tracker_initialised && s.closest_person_detection_id ≠ -1 then
        let m1 := m.call Effect.Track
        let detection_bbox := pixelBox img closest_person_detection
        let m2 :=
          if DetectionTrackingDisagree bbox_estimate detection_bbox
              && s.closest_person_detection_id ≠ -1 then
            m1.call (Effect.Init detection_bbox)
          else m1
        if stop_area_exceeded img bbox_estimate = true then
          Run.returned
            (m2.call (Effect.SendtoController g.turnval g.speedval g.sitval 1 g.walkval))
        else
          Run.returned
            (m2.call (Effect.SendtoController (turnval_update img bbox_estimate * 2) g.speedval
              g.sitval g.standval 1))
      else if m.tracker_initialised
          && s.best_person_confidence > PERSON_EXIST_CONFIDENCE_TH then
        let m1 := m.call Effect.Track
        if stop_area_exceeded img bbox_estimate = true then
          Run.returned
            (m1.call (Effect.SendtoController g.turnval g.speedval g.sitval 1 g.walkval))
        else
          Run.returned
            (m1.call (Effect.SendtoController (turnval_update img bbox_estimate * 6) g.speedval
              g.sitval g.standval 1))
      else
        Run.returned
          (m.call (Effect.SendtoController g.turnval g.speedval g.sitval 1 g.walkval))

/-- The index of the lookup `detections[closest_person_detection_id]` of line 314, which
every call that gets past the loop performs; `none` when the call aborts before it. -/
def closestLookupIndex (img : Mat) (confidence_threshold : ℚ) (detections : List (List ℚ)) :
    Option Int :=
  if img.empty then none
  else
    match selectionLoop img confidence_threshold detections 0 Selection.start with
    | none => none
    | some s => some s.closest_person_detection_id

/-! ## The selection loop: totality and invariants -/

theorem loopBody_some_length {img : Mat} {ct : ℚ} {i : Nat} {d : List ℚ} {s s' : Selection}
    (h : loopBody img ct i d s = some s') : d.length = 7 := by
  by_contra hne
  simp [loopBody, hne] at h

theorem loopBody_total (img : Mat) (ct : ℚ) (i : Nat) (d : List ℚ) (s : Selection)
    (h : d.length = 7) : ∃ s', loopBody img ct i d s = some s' := by
  unfold loopBody
  simp only [h, ne_eq, not_true_eq_false, if_false]
  split
  · exact ⟨_, rfl⟩
  · exact ⟨_, rfl⟩

theorem selectionLoop_total (img : Mat) (ct : ℚ) :
    ∀ (ds : List (List ℚ)) (i : Nat) (s : Selection), (∀ d ∈ ds, d.length = 7) →
      ∃ s', selectionLoop img ct ds i s = some s'
  | [], _, s, _ => ⟨s, rfl⟩
  | d :: ds, i, s, h => by
    obtain ⟨s1, h1⟩ := loopBody_total img ct i d s (h d (List.mem_cons_self _ _))
    obtain ⟨s2, h2⟩ := selectionLoop_total img ct ds (i + 1) s1
      (fun e he => h e (List.mem_cons_of_mem _ he))
    exact ⟨s2, by simp only [selectionLoop, h1, h2]⟩

theorem selectionLoop_some_length (img : Mat) (ct : ℚ) :
    ∀ (ds : List (List ℚ)) (i : Nat) (s s' : Selection),
      selectionLoop img ct ds i s = some s' → ∀ d ∈ ds, d.length = 7
  | [], _, _, _, _ => by simp
  | d :: ds, i, s, s', h => by
    intro e he
    simp only [selectionLoop] at h
    cases h1 : loopBody img ct i d s with
    | none => simp [h1] at h
    | some s1 =>
      simp only [h1] at h
      rcases List.mem_cons.mp he with rfl | he'
      · exact loopBody_some_length h1
      · exact selectionLoop_some_length img ct ds (i + 1) s1 s' h e he'

/-- Loop invariant rule: a property of (records seen so far, locals) that every iteration
preserves holds when the loop ends. -/
theorem selectionLoop_invariant (img : Mat) (ct : ℚ) (Q : List ℚ → Prop)
    (P : List (List ℚ) → Selection → Prop)
    (hstep : ∀ pre d s s', Q d → P pre s → loopBody img ct pre.length d s = some s' →
      P (pre ++ [d]) s') :
    ∀ (ds pre : List (List ℚ)) (s s' : Selection), (∀ d ∈ ds, Q d) → P pre s →
      selectionLoop img ct ds pre.length s = some s' → P (pre ++ ds) s'
  | [], pre, s, s', _, hP, h => by
    simp only [selectionLoop, Option.some.injEq] at h
    subst h
    simpa using hP
  | d :: ds, pre, s, s', hQ, hP, h => by
    simp only [selectionLoop] at h
    cases h1 : loopBody img ct pre.length d s with
    | none => simp [h1] at h
    | some s1 =>
      simp only [h1] at h
      have hP1 := hstep pre d s s1 (hQ d (List.mem_cons_self _ _)) hP h1
      have hlen : (pre ++ [d]).length = pre.length + 1 := by simp
      rw [← hlen] at h
      have := selectionLoop_invariant img ct Q P hstep ds (pre ++ [d]) s1 s'
        (fun e he => hQ e (List.mem_cons_of_mem _ he)) hP1 h
      simpa using this

theorem closestInv_step (img : Mat) (ct : ℚ) (pre : List (List ℚ)) (d : List ℚ)
    (s s' : Selection) (hP : ClosestInv img ct pre s)
    (h : loopBody img ct pre.length d s = some s') : ClosestInv img ct (pre ++ [d]) s' := by
  have h7 := loopBody_some_length h
  unfold loopBody at h
  simp only [h7, ne_eq, not_true_eq_false, if_false] at h
  by_cases hq : goodPerson ct d ∧ this_region img d > s.max_region
  · -- the record becomes the closest one
    obtain ⟨⟨hp, hc, hg⟩, hr⟩ := hq
    have hp' : static_cast_int (field d 1) = PERSON_LABEL := hp
    have hs' : s'.closest_person_detection_id = (pre.length : Int) ∧
        s'.max_region = this_region img d := by
      simp only [ge_iff_le, hc, if_true, hp', hr, hg, and_self, gt_iff_lt, true_and] at h
      split at h <;> (cases h; exact ⟨rfl, rfl⟩)
    have hlow : this_region img d > -1 := by
      rcases hP with ⟨_, hm, _⟩ | ⟨k, d0, _, _, _, hm, hgt, _, _⟩
      · rw [hm] at hr; exact hr
      · rw [hm] at hr; exact lt_trans hgt hr
    right
    refine ⟨pre.length, d, hs'.1, by simp, ⟨hp, hc, hg⟩, hs'.2, hlow, ?_, ?_⟩
    · intro d' hd' hgood
      rcases List.mem_append.mp hd' with hin | hin
      · rcases hP with ⟨_, hm, hall⟩ | ⟨k, d0, _, _, _, hm, _, hall, _⟩
        · exact le_trans (hall d' hin hgood) (le_of_lt hlow)
        · rw [hm] at hr
          exact le_trans (hall d' hin hgood) (le_of_lt hr)
      · simp only [List.mem_singleton] at hin
        subst hin; exact le_refl _
    · intro j d' hj hjd hgood
      rw [List.getElem?_append_left hj] at hjd
      have hin : d' ∈ pre := List.getElem?_mem hjd
      rcases hP with ⟨_, hm, hall⟩ | ⟨k, d0, _, _, _, hm, _, hall, _⟩
      · exact lt_of_le_of_lt (hall d' hin hgood) hlow
      · rw [hm] at hr
        exact lt_of_le_of_lt (hall d' hin hgood) hr
  · -- the closest record and `max_region` are unchanged
    have hs' : s'.closest_person_detection_id = s.closest_person_detection_id ∧
        s'.max_region = s.max_region := by
      by_cases hc : field d 2 ≥ ct
      · have hno : ¬ (static_cast_int (field d 1) = PERSON_LABEL ∧
            this_region img d > s.max_region ∧ field d 2 > PERSON_GOOD_CONFIDENCE_TH) := by
          rintro ⟨a, b, c⟩
          exact hq ⟨⟨a, hc, c⟩, b⟩
        simp only [hc, if_true, hno, if_false] at h
        split at h <;> (cases h; exact ⟨rfl, rfl⟩)
      · simp only [hc, if_false] at h
        cases h; exact ⟨rfl, rfl⟩
    have hd : goodPerson ct d → this_region img d ≤ s.max_region := by
      intro hg
      by_contra hlt
      exact hq ⟨hg, lt_of_not_le hlt⟩
    rcases hP with ⟨hid, hm, hall⟩ | ⟨k, d0, hid, hk, hg0, hm, hgt, hall, hfirst⟩
    · left
      refine ⟨hs'.1.trans hid, hs'.2.trans hm, ?_⟩
      intro d' hd' hgood
      rcases List.mem_append.mp hd' with hin | hin
      · exact hall d' hin hgood
      · simp only [List.mem_singleton] at hin
        subst hin
        rw [← hm]; exact hd hgood
    · right
      have hklt : k < pre.length := by
        by_contra hge
        rw [List.getElem?_eq_none (not_lt.mp hge)] at hk
        cases hk
      refine ⟨k, d0, hs'.1.trans hid, ?_, hg0, hs'.2.trans hm, hgt, ?_, ?_⟩
      · rw [List.getElem?_append_left hklt]; exact hk
      · intro d' hd' hgood
        rcases List.mem_append.mp hd' with hin | hin
        · exact hall d' hin hgood
        · simp only [List.mem_singleton] at hin
          subst hin
          rw [← hm]; exact hd hgood
      · intro j d' hj hjd hgood
        rw [List.getElem?_append_left (lt_trans hj hklt)] at hjd
        exact hfirst j d' hj hjd hgood

theorem loopBody_best {img : Mat} {ct : ℚ} {i : Nat} {d : List ℚ} {s s' : Selection}
    (h : loopBody img ct i d s = some s') :
    s'.best_person_confidence =
      if field d 2 ≥ ct ∧ isPerson d ∧ field d 2 > s.best_person_confidence then field d 2
      else s.best_person_confidence := by
  have h7 := loopBody_some_length h
  unfold loopBody at h
  simp only [h7, ne_eq, not_true_eq_false, if_false] at h
  unfold isPerson
  by_cases hc : field d 2 ≥ ct
  · simp only [hc, if_true, true_and] at h ⊢
    by_cases hq : static_cast_int (field d 1) = PERSON_LABEL ∧
        field d 2 > s.best_person_confidence
    · rw [if_pos hq]
      split at h <;> (cases h; rfl)
    · rw [if_neg hq]
      split at h <;> (cases h; rfl)
  · simp only [hc, if_false, false_and] at h ⊢
    cases h; rfl

theorem bestInv_step (img : Mat) (ct : ℚ) (pre : List (List ℚ)) (d : List ℚ)
    (s s' : Selection) (hP : BestInv ct pre s)
    (h : loopBody img ct pre.length d s = some s') : BestInv ct (pre ++ [d]) s' := by
  have hb := loopBody_best h
  obtain ⟨hsrc, hmax, hlow⟩ := hP
  by_cases hq : field d 2 ≥ ct ∧ isPerson d ∧ field d 2 > s.best_person_confidence
  · rw [if_pos hq] at hb
    obtain ⟨hc, hp, hgt⟩ := hq
    refine ⟨Or.inr ⟨d, by simp, hp, hc, hb⟩, ?_, ?_⟩
    · intro d' hd' hp' hc'
      rw [hb]
      rcases List.mem_append.mp hd' with hin | hin
      · exact le_trans (hmax d' hin hp' hc') (le_of_lt hgt)
      · simp only [List.mem_singleton] at hin
        subst hin; exact le_refl _
    · rw [hb]; exact le_trans hlow (le_of_lt hgt)
  · rw [if_neg hq] at hb
    refine ⟨?_, ?_, ?_⟩
    · rcases hsrc with h1 | ⟨d0, hd0, hp0, hc0, he0⟩
      · exact Or.inl (hb.trans h1)
      · exact Or.inr ⟨d0, List.mem_append_left _ hd0, hp0, hc0, hb.trans he0⟩
    · intro d' hd' hp' hc'
      rw [hb]
      rcases List.mem_append.mp hd' with hin | hin
      · exact hmax d' hin hp' hc'
      · simp only [List.mem_singleton] at hin
        subst hin
        by_contra hlt
        exact hq ⟨hc', hp', lt_of_not_le hlt⟩
    · rw [hb]; exact hlow

/-- The two invariants hold when the loop of `DetectionTrackingProcessFrame` ends. -/
theorem selectionLoop_spec (img : Mat) (ct : ℚ) (detections : List (List ℚ)) (s : Selection)
    (h : selectionLoop img ct detections 0 Selection.start = some s) :
    ClosestInv img ct detections s ∧ BestInv ct detections s := by
  have h0 : selectionLoop img ct detections ([] : List (List ℚ)).length Selection.start
      = some s := h
  have key := selectionLoop_invariant img ct (fun _ => True)
    (fun pre t => ClosestInv img ct pre t ∧ BestInv ct pre t)
    (fun pre d t t' _ hP ht =>
      ⟨closestInv_step img ct pre d t t' hP.1 ht, bestInv_step img ct pre d t t' hP.2 ht⟩)
    detections [] Selection.start s (fun _ _ => trivial)
    ⟨Or.inl ⟨rfl, rfl, by simp⟩, Or.inl rfl, by simp, by simp [Selection.start]⟩ h0
  simpa using key

/-- With no record reaching the confidence threshold the loop leaves its locals at their
initial values. -/
theorem selectionLoop_below (img : Mat) (ct : ℚ) (detections : List (List ℚ))
    (h7 : ∀ d ∈ detections, d.length = 7) (hlow : ∀ d ∈ detections, ¬ field d 2 ≥ ct) :
    selectionLoop img ct detections 0 Selection.start = some Selection.start := by
  obtain ⟨s, hs⟩ := selectionLoop_total img ct detections 0 Selection.start h7
  have h0 : selectionLoop img ct detections ([] : List (List ℚ)).length Selection.start
      = some s := hs
  have key := selectionLoop_invariant img ct (fun d => ¬ field d 2 ≥ ct)
    (fun _ t => t = Selection.start)
    (fun pre d t t' hd hP ht => by
      have hlen := loopBody_some_length ht
      unfold loopBody at ht
      simp only [hlen, ne_eq, not_true_eq_false, if_false, hd] at ht
      cases ht; exact hP)
    detections [] Selection.start s hlow rfl h0
  rw [hs, key]

/-! ## The branches of the frame function -/

/-- The frame function past its two `CHECK`s: the branch chain of lines 319-411. -/
theorem processFrame_branches (g : Globals) (img : Mat) (detections : List (List ℚ))
    (est : BoundingBox) (ct : ℚ) (init : Bool) (s : Selection)
    (hne : img.empty = false)
    (hs : selectionLoop img ct detections 0 Selection.start = some s) :
    DetectionTrackingProcessFrame g img detections est ct init =
      if !init && s.closest_person_detection_id ≠ -1 then
        some { effects := [Effect.Init
                 (pixelBox img (detections.getD s.closest_person_detection_id.toNat []))],
               tracker_initialised := true, globals := g }
      else if init && s.closest_person_detection_id ≠ -1 then
        some { effects := Effect.Track ::
                 ((if DetectionTrackingDisagree est
                      (pixelBox img (detections.getD s.closest_person_detection_id.toNat []))
                      && s.closest_person_detection_id ≠ -1 then
                    [Effect.Init
                      (pixelBox img (detections.getD s.closest_person_detection_id.toNat []))]
                  else []) ++
                  [if stop_area_exceeded img est = true then
                     Effect.SendtoController g.turnval g.speedval g.sitval 1 g.walkval
                   else
                     Effect.SendtoController (turnval_update img est * 2) g.speedval g.sitval
                       g.standval 1]),
               tracker_initialised := init, globals := g }
      else if init && s.best_person_confidence > PERSON_EXIST_CONFIDENCE_TH then
        some { effects := [Effect.Track,
                 if stop_area_exceeded img est = true then
                   Effect.SendtoController g.turnval g.speedval g.sitval 1 g.walkval
                 else
                   Effect.SendtoController (turnval_update img est * 6) g.speedval g.sitval
                     g.standval 1],
               tracker_initialised := init, globals := g }
      else
        some { effects := [Effect.SendtoController g.turnval g.speedval g.sitval 1 g.walkval],
               tracker_initialised := init, globals := g } := by
  unfold DetectionTrackingProcessFrame
  simp only [hne, hs, Bool.false_eq_true, if_false]

/-- When the loop has chosen a record, the lookup of line 314 yields it. -/
theorem closest_lookup (img : Mat) (ct : ℚ) (detections : List (List ℚ)) (s : Selection)
    (hs : selectionLoop img ct detections 0 Selection.start = some s)
    (hc : s.closest_person_detection_id ≠ -1) :
    ∃ (k : Nat) (d : List ℚ), s.closest_person_detection_id = (k : Int) ∧
      detections[k]? = some d ∧ goodPerson ct d ∧
      detections.getD s.closest_person_detection_id.toNat [] = d := by
  rcases (selectionLoop_spec img ct detections s hs).1 with
    ⟨hid, _, _⟩ | ⟨k, d, hid, hk, hg, _, _, _, _⟩
  · exact absurd hid hc
  · refine ⟨k, d, hid, hk, hg, ?_⟩
    rw [hid, Int.toNat_ofNat, List.getD_eq_getElem?_getD, hk]
    rfl

/-- The loop's `best_person_confidence` exceeds a bound `x ≥ -1` exactly when some person
record at or above the confidence threshold has a score above `x`. -/
theorem best_gt_iff (img : Mat) (ct : ℚ) (detections : List (List ℚ)) (s : Selection)
    (hs : selectionLoop img ct detections 0 Selection.start = some s) (x : ℚ) (hx : -1 ≤ x) :
    s.best_person_confidence > x ↔
      ∃ d ∈ detections, isPerson d ∧ field d 2 ≥ ct ∧ field d 2 > x := by
  obtain ⟨hsrc, hmax, _⟩ := (selectionLoop_spec img ct detections s hs).2
  constructor
  · intro hgt
    rcases hsrc with h1 | ⟨d, hd, hp, hc, he⟩
    · rw [h1] at hgt
      exact absurd hgt (not_lt.mpr hx)
    · exact ⟨d, hd, hp, hc, by rw [← he]; exact hgt⟩
  · rintro ⟨d, hd, hp, hc, hgt⟩
    exact lt_of_lt_of_le hgt (hmax d hd hp hc)

/-- The frame loop never changes the global command variables. -/
theorem frameLoop_globals (ct : ℚ) :
    ∀ (frames : List FrameInput) (o o' : Outcome), frameLoop ct frames o = some o' →
      o'.globals = o.globals
  | [], o, o', h => by
    simp only [frameLoop, Option.some.injEq] at h
    rw [h]
  | f :: fs, o, o', h => by
    simp only [frameLoop] at h
    cases h1 : DetectionTrackingProcessFrame o.globals f.img f.detections f.bbox_estimate ct
        o.tracker_initialised with
    | none => simp [h1] at h
    | some o1 =>
      simp only [h1] at h
      have h2 := frameLoop_globals ct fs _ o' h
      have h3 : o1.globals = o.globals := by
        unfold DetectionTrackingProcessFrame at h1
        split at h1
        · cases h1
        · split at h1
          · cases h1
          · split at h1
            · cases h1; rfl
            · split at h1
              · cases h1; rfl
              · split at h1 <;> (cases h1; rfl)
      exact h2.trans h3

/-- Branch of lines 319-340. -/
theorem frame_initializing (g : Globals) (img : Mat) (detections : List (List ℚ))
    (est : BoundingBox) (ct : ℚ) (s : Selection) (hne : img.empty = false)
    (hs : selectionLoop img ct detections 0 Selection.start = some s)
    (hc : s.closest_person_detection_id ≠ -1) :
    DetectionTrackingProcessFrame g img detections est ct false =
      some { effects := [Effect.Init
               (pixelBox img (detections.getD s.closest_person_detection_id.toNat []))],
             tracker_initialised := true, globals := g } := by
  rw [processFrame_branches g img detections est ct false s hne hs]
  simp [hc]

/-- Branch of lines 341-381. -/
theorem frame_tracking (g : Globals) (img : Mat) (detections : List (List ℚ))
    (est : BoundingBox) (ct : ℚ) (s : Selection) (hne : img.empty = false)
    (hs : selectionLoop img ct detections 0 Selection.start = some s)
    (hc : s.closest_person_detection_id ≠ -1) :
    DetectionTrackingProcessFrame g img detections est ct true =
      some { effects := Effect.Track ::
               ((if DetectionTrackingDisagree est
                    (pixelBox img (detections.getD s.closest_person_detection_id.toNat []))
                    = true then
                  [Effect.Init
                    (pixelBox img (detections.getD s.closest_person_detection_id.toNat []))]
                else []) ++
                [if stop_area_exceeded img est = true then
                   Effect.SendtoController g.turnval g.speedval g.sitval 1 g.walkval
                 else
                   Effect.SendtoController (turnval_update img est * 2) g.speedval g.sitval
                     g.standval 1]),
             tracker_initialised := true, globals := g } := by
  rw [processFrame_branches g img detections est ct true s hne hs]
  simp [hc]

/-- Branch of lines 382-404. -/
theorem frame_degraded (g : Globals) (img : Mat) (detections : List (List ℚ))
    (est : BoundingBox) (ct : ℚ) (s : Selection) (hne : img.empty = false)
    (hs : selectionLoop img ct detections 0 Selection.start = some s)
    (hc : s.closest_person_detection_id = -1)
    (hb : s.best_person_confidence > PERSON_EXIST_CONFIDENCE_TH) :
    DetectionTrackingProcessFrame g img detections est ct true =
      some { effects := [Effect.Track,
               if stop_area_exceeded img est = true then
                 Effect.SendtoController g.turnval g.speedval g.sitval 1 g.walkval
               else
                 Effect.SendtoController (turnval_update img est * 6) g.speedval g.sitval
                   g.standval 1],
             tracker_initialised := true, globals := g } := by
  rw [processFrame_branches g img detections est ct true s hne hs]
  simp [hc, hb]

/-- Branch of lines 405-411. -/
theorem frame_idle (g : Globals) (img : Mat) (detections : List (List ℚ))
    (est : BoundingBox) (ct : ℚ) (init : Bool) (s : Selection) (hne : img.empty = false)
    (hs : selectionLoop img ct detections 0 Selection.start = some s)
    (hc : s.closest_person_detection_id = -1)
    (hb : init = true → ¬ s.best_person_confidence > PERSON_EXIST_CONFIDENCE_TH) :
    DetectionTrackingProcessFrame g img detections est ct init =
      some { effects := [Effect.SendtoController g.turnval g.speedval g.sitval 1 g.walkval],
             tracker_initialised := init, globals := g } := by
  rw [processFrame_branches g img detections est ct init s hne hs]
  cases init
  · simp [hc]
  · have hb' := hb rfl
    simp only [gt_iff_lt, not_lt] at hb'
    simp [hc, hb']

theorem disagree_iff (a b : BoundingBox) :
    DetectionTrackingDisagree a b = true ↔ a.compute_IOU b < DETECTION_TRACKING_DISAGREE_TH := by
  unfold DetectionTrackingDisagree
  split <;> simp_all

theorem isSend_ite (c : Prop) [Decidable c] (t t' sp sp' : ℚ) (si si' st st' w w' : Int) :
    (if c then Effect.SendtoController t sp si st w
      else Effect.SendtoController t' sp' si' st' w').isSend = true := by
  split <;> rfl

theorem calls_of_track_frame (r : List Effect) (e : Effect) (he : e.isSend = true)
    (hr : ∀ x ∈ r, x.isSend = false) :
    trackerCalls (Effect.Track :: (r ++ [e])) = Effect.Track :: r ∧
    sentCommands (Effect.Track :: (r ++ [e])) = [e] := by
  have h1 : r.filter (fun x => !x.isSend) = r :=
    List.filter_eq_self.mpr (fun x hx => by simp [hr x hx])
  have h2 : r.filter Effect.isSend = [] :=
    List.filter_eq_nil_iff.mpr (fun x hx => by simp [hr x hx])
  have ht : Effect.Track.isSend = false := rfl
  constructor
  · simp [trackerCalls, List.filter_cons, List.filter_append, ht, he, h1]
  · simp [sentCommands, List.filter_cons, List.filter_append, ht, he, h2]

/-- The tracker calls and the command of a frame that ran `tracker.Track`, possibly
re-initialised (`r`), and steered with gain `k`. -/
theorem calls_of_steered_frame (g : Globals) (img : Mat) (est : BoundingBox) (k : ℚ)
    (r : List Effect) (hr : ∀ x ∈ r, x.isSend = false) :
    trackerCalls (Effect.Track :: (r ++
        [if stop_area_exceeded img est = true then
           Effect.SendtoController g.turnval g.speedval g.sitval 1 g.walkval
         else
           Effect.SendtoController (turnval_update img est * k) g.speedval g.sitval
             g.standval 1])) = Effect.Track :: r ∧
    sentCommands (Effect.Track :: (r ++
        [if stop_area_exceeded img est = true then
           Effect.SendtoController g.turnval g.speedval g.sitval 1 g.walkval
         else
           Effect.SendtoController (turnval_update img est * k) g.speedval g.sitval
             g.standval 1])) =
      [if stop_area_exceeded img est = true then
         Effect.SendtoController g.turnval g.speedval g.sitval 1 g.walkval
       else
         Effect.SendtoController (turnval_update img est * k) g.speedval g.sitval
           g.standval 1] :=
  calls_of_track_frame r _ (isSend_ite _ _ _ _ _ _ _ _ _ _ _) hr

/-- The command of a frame in the Tracking branch (gain 2) or the Degraded branch
(gain 6). -/
theorem sent_of_tracking_or_degraded (g : Globals) (img : Mat) (detections : List (List ℚ))
    (est : BoundingBox) (ct : ℚ) (s : Selection) (hne : img.empty = false)
    (hs : selectionLoop img ct detections 0 Selection.start = some s)
    (hreg : s.closest_person_detection_id ≠ -1 ∨
      s.best_person_confidence > PERSON_EXIST_CONFIDENCE_TH) :
    ∃ o, DetectionTrackingProcessFrame g img detections est ct true = some o ∧
      o.tracker_initialised = true ∧ o.globals = g ∧
      sentCommands o.effects =
        [if stop_area_exceeded img est = true then
           Effect.SendtoController g.turnval g.speedval g.sitval 1 g.walkval
         else
           Effect.SendtoController
             (turnval_update img est * (if s.closest_person_detection_id ≠ -1 then 2 else 6))
             g.speedval g.sitval g.standval 1] := by
  by_cases hc : s.closest_person_detection_id = -1
  · have hb : s.best_person_confidence > PERSON_EXIST_CONFIDENCE_TH := by
      rcases hreg with h | h
      · exact absurd hc h
      · exact h
    refine ⟨_, frame_degraded g img detections est ct s hne hs hc hb, rfl, rfl, ?_⟩
    have h := (calls_of_steered_frame g img est 6 [] (fun x hx => by simp at hx)).2
    simp only [List.nil_append] at h
    simp only [h, hc, ne_eq, not_true_eq_false, if_false]
  · refine ⟨_, frame_tracking g img detections est ct s hne hs hc, rfl, rfl, ?_⟩
    have h := fun r hr => (calls_of_steered_frame g img est 2 r hr).2
    simp only [ne_eq, hc, not_false_eq_true, if_true]
    split
    · exact h _ (fun x hx => by rw [List.mem_singleton.mp hx]; rfl)
    · exact h _ (fun x hx => by simp at hx)

/-- A product below 2^31 is not changed by the wrap-around. -/
theorem int32_of_small (x : Int) (h0 : 0 ≤ x) (h1 : x < 2147483648) : int32 x = x := by
  unfold int32
  omega

/-- On a non-empty frame of fewer than 2^31 pixels `image_area` is the exact product
`cols * rows`, and it is positive. -/
theorem image_area_of_small (img : Mat) (hne : img.empty = false)
    (hsmall : img.cols * img.rows < 2147483648) :
    image_area img = ((img.cols * img.rows : Nat) : ℚ) ∧ 0 < image_area img := by
  have hpos : 0 < img.cols * img.rows := by
    rcases Nat.eq_zero_or_pos (img.cols * img.rows) with h | h
    · rw [Nat.mul_comm] at h
      simp [Mat.empty, h] at hne
    · exact h
  have key : ∀ n : Nat, n < 2147483648 → int32 (n : Int) = (n : Int) :=
    fun n hn => int32_of_small _ (Int.ofNat_nonneg n) (by omega)
  have e : int32 ((img.cols : Int) * (img.rows : Int)) = ((img.cols * img.rows : Nat) : Int) := by
    rw [← Nat.cast_mul]
    exact key _ hsmall
  have e2 : image_area img = ((img.cols * img.rows : Nat) : ℚ) := by
    unfold image_area
    rw [e]
    exact Int.cast_natCast _
  exact ⟨e2, by rw [e2]; exact_mod_cast hpos⟩

/-- On a non-empty frame of fewer than 2^31 pixels the test of lines 369 and 392 is the
comparison of `area / (cols * rows)` with 0.6. -/
theorem stop_area_exceeded_iff (img : Mat) (est : BoundingBox) (hne : img.empty = false)
    (hsmall : img.cols * img.rows < 2147483648) :
    stop_area_exceeded img est = true ↔
      est.compute_area / ((img.cols * img.rows : Nat) : ℚ) > 6 / 10 := by
  obtain ⟨e, hpos⟩ := image_area_of_small img hne hsmall
  unfold stop_area_exceeded
  rw [if_neg (ne_of_gt hpos), decide_eq_true_iff, bbox_area_fraction, e, STOP_AREA_TH]

/-- Past 2^31 pixels the `int` product no longer is the pixel count: in a 50000x50000
frame it wraps to a negative `image_area`, so an estimate covering 65% of the frame fails
the test of lines 369 and 392; in a 65536x65536 frame it wraps to 0, so an estimate
covering 25% of the frame passes it. -/
theorem stop_area_exceeded_on_wrapped_area :
    image_area ⟨50000, 50000, true⟩ = -1794967296 ∧
    stop_area_exceeded ⟨50000, 50000, true⟩ ⟨0, 0, 50000, 32500⟩ = false ∧
    image_area ⟨65536, 65536, true⟩ = 0 ∧
    stop_area_exceeded ⟨65536, 65536, true⟩ ⟨0, 0, 32768, 32768⟩ = true := by
  have e1 : image_area ⟨50000, 50000, true⟩ = -1794967296 := by
    norm_num [image_area, int32]
  have e2 : image_area ⟨65536, 65536, true⟩ = 0 := by
    norm_num [image_area, int32]
  refine ⟨e1, ?_, e2, ?_⟩
  · norm_num [stop_area_exceeded, bbox_area_fraction, e1, BoundingBox.compute_area,
      STOP_AREA_TH]
  · norm_num [stop_area_exceeded, e2, BoundingBox.compute_area]

/-- No `float` lies between the `double` literal `0.3` and 3/10, both ends included: a
`float` that is at least the literal is above 3/10.  Hence on `float` values the
comparisons `>= 0.3` and `> 0.3` agree, with `0.3` read as the literal or as 3/10. -/
theorem float_above_three_tenths (q : ℚ) (h : isFloat q) (hlo : doubleLiteral_0_3 ≤ q) :
    3 / 10 < q := by
  by_contra hhi
  rw [not_lt] at hhi
  unfold doubleLiteral_0_3 at hlo
  obtain ⟨m, e, hm, he⟩ := h
  have hpow : (0 : ℚ) < (2 : ℚ) ^ e := by positivity
  have hmpos : 0 < m := by
    by_contra hneg
    rw [not_lt] at hneg
    have : (m : ℚ) ≤ 0 := by exact_mod_cast hneg
    have : q ≤ 0 := by rw [he]; exact mul_nonpos_of_nonpos_of_nonneg this hpow.le
    linarith
  have hmlt : (m : ℚ) < 16777216 := by
    have : m < 16777216 := lt_of_le_of_lt (le_abs_self m) hm
    exact_mod_cast this
  have he25 : -25 ≤ e := by
    by_contra hlt
    rw [not_le] at hlt
    have h1 : (2 : ℚ) ^ e ≤ (2 : ℚ) ^ (-26 : ℤ) :=
      zpow_le_zpow_right₀ (by norm_num) (by omega)
    have h2 : (2 : ℚ) ^ (-26 : ℤ) = 1 / 67108864 := by norm_num [zpow_neg]
    rw [h2] at h1
    have : q ≤ 16777216 * (1 / 67108864) := by
      rw [he]
      exact mul_le_mul hmlt.le h1 hpow.le (by norm_num)
    linarith
  obtain ⟨n, hn⟩ : ∃ n : ℕ, e = (n : ℤ) - 25 := ⟨(e + 25).toNat, by omega⟩
  have hq : q * 33554432 = ((m * 2 ^ n : ℤ) : ℚ) := by
    rw [he, hn, zpow_sub₀ (by norm_num : (2 : ℚ) ≠ 0), zpow_natCast]
    push_cast
    norm_num
    field_simp
  generalize m * 2 ^ n = t at hq
  have ht1 : ((10066329 : ℤ) : ℚ) < (t : ℚ) := by
    rw [← hq]; push_cast; linarith
  have ht2 : (t : ℚ) < ((10066330 : ℤ) : ℚ) := by
    rw [← hq]; push_cast; linarith
  have ht1' : (10066329 : ℤ) < t := by exact_mod_cast ht1
  have ht2' : t < (10066330 : ℤ) := by exact_mod_cast ht2
  omega

theorem cols_pos_of_not_empty (img : Mat) (hne : img.empty = false) : (0 : ℚ) < img.cols := by
  have h : img.cols ≠ 0 := by
    intro h0
    simp [Mat.empty, h0] at hne
  exact_mod_cast Nat.pos_of_ne_zero h

theorem turn_sign (x w k : ℚ) (hw : 0 < w) (hk : 0 < k) :
    (x < w → (x / w / 2 - 1 / 2) * k < 0) ∧ (x > w → (x / w / 2 - 1 / 2) * k > 0) := by
  have e : x / w / 2 - 1 / 2 = (x - w) / (2 * w) := by
    field_simp
    ring
  rw [e]
  have h2w : 0 < 2 * w := by linarith
  constructor
  · intro h
    exact mul_neg_of_neg_of_pos (div_neg_of_neg_of_pos (by linarith) h2w) hk
  · intro h
    exact mul_pos (div_pos (by linarith) h2w) hk

/-! ## The properties -/

/-- The loop's choice in terms of `this_region`: the statement behind C1. -/
theorem selectionLoop_closest (img : Mat) (confidence_threshold : ℚ)
    (detections : List (List ℚ)) (h7 : ∀ d ∈ detections, d.length = 7) :
    ∃ s, selectionLoop img confidence_threshold detections 0 Selection.start = some s ∧
      ((∀ d ∈ detections, goodPerson confidence_threshold d → this_region img d ≤ -1) →
        s.closest_person_detection_id = -1) ∧
      ((∃ d ∈ detections, goodPerson confidence_threshold d ∧ this_region img d > -1) →
        ∃ (k : Nat) (d : List ℚ), s.closest_person_detection_id = (k : Int) ∧
          detections[k]? = some d ∧ goodPerson confidence_threshold d ∧
          (∀ d' ∈ detections, goodPerson confidence_threshold d' →
            this_region img d' ≤ this_region img d) ∧
          (∀ (j : Nat) (d' : List ℚ), j < k → detections[j]? = some d' →
            goodPerson confidence_threshold d' → this_region img d' < this_region img d)) := by
  obtain ⟨s, hs⟩ := selectionLoop_total img confidence_threshold detections 0 Selection.start h7
  have hinv := (selectionLoop_spec img confidence_threshold detections s hs).1
  refine ⟨s, hs, ?_, ?_⟩
  · intro hall
    rcases hinv with ⟨hid, _, _⟩ | ⟨k, d, _, hk, hg, _, hgt, _, _⟩
    · exact hid
    · exact absurd (hall d (List.getElem?_mem hk) hg) (not_le.mpr hgt)
  · rintro ⟨d0, hd0, hg0, hr0⟩
    rcases hinv with ⟨_, _, hall⟩ | ⟨k, d, hid, hk, hg, _, _, hall, hfirst⟩
    · exact absurd (hall d0 hd0 hg0) (not_le.mpr hr0)
    · exact ⟨k, d, hid, hk, hg, hall, hfirst⟩

/-- C1 (as amended): on a list of 7-field records `[image_id, label, score, xmin, ymin,
xmax, ymax]` and any frame size the loop ends.  Call a detection good when its label is
PERSON (15), its score is >= confidence_threshold and its score is > 0.5, and let its
projected area be `(xmax*cols - xmin*cols) * (ymax*rows - ymin*rows)`.  If no good
detection has a projected area above -1 (the initial `max_region`), in particular if there
is no good detection, `closest_person_detection_id` is -1; otherwise it is the index of
the first good detection whose projected area is maximal among all good detections. -/
theorem C1_closest_is_first_largest (img : Mat) (confidence_threshold : ℚ)
    (detections : List (List ℚ)) (h7 : ∀ d ∈ detections, d.length = 7) :
    ∃ s, selectionLoop img confidence_threshold detections 0 Selection.start = some s ∧
      ((∀ d ∈ detections, ¬ goodPerson confidence_threshold d) →
        s.closest_person_detection_id = -1) ∧
      ((∀ d ∈ detections, goodPerson confidence_threshold d →
          (field d 5 * img.cols - field d 3 * img.cols) *
            (field d 6 * img.rows - field d 4 * img.rows) ≤ -1) →
        s.closest_person_detection_id = -1) ∧
      ((∃ d ∈ detections, goodPerson confidence_threshold d ∧
          (field d 5 * img.cols - field d 3 * img.cols) *
            (field d 6 * img.rows - field d 4 * img.rows) > -1) →
        ∃ (k : Nat) (d : List ℚ), s.closest_person_detection_id = (k : Int) ∧
          detections[k]? = some d ∧ goodPerson confidence_threshold d ∧
          (∀ d' ∈ detections, goodPerson confidence_threshold d' →
            (field d' 5 * img.cols - field d' 3 * img.cols) *
                (field d' 6 * img.rows - field d' 4 * img.rows) ≤
              (field d 5 * img.cols - field d 3 * img.cols) *
                (field d 6 * img.rows - field d 4 * img.rows)) ∧
          (∀ (j : Nat) (d' : List ℚ), j < k → detections[j]? = some d' →
            goodPerson confidence_threshold d' →
            (field d' 5 * img.cols - field d' 3 * img.cols) *
                (field d' 6 * img.rows - field d' 4 * img.rows) <
              (field d 5 * img.cols - field d 3 * img.cols) *
                (field d 6 * img.rows - field d 4 * img.rows))) := by
  obtain ⟨s, hs, hneg, hpos⟩ := selectionLoop_closest img confidence_threshold detections h7
  simp only [this_region] at hneg hpos
  exact ⟨s, hs, fun hnone => hneg (fun d hd hg => absurd hg (hnone d hd)), hneg, hpos⟩

/-- Witness of C1: among five detections in a 640x480 frame the good ones are at indices
0, 1 and 2 with projected areas 12288, 24576 and 24576; the theorem forces the id to be
1, the first of the two largest. -/
theorem C1_closest_is_first_largest_witness :
    (∀ d ∈ fiveDetections, d.length = 7) ∧
    ∃ s, selectionLoop frame640x480 (1 / 100) fiveDetections 0 Selection.start = some s ∧
      s.closest_person_detection_id = 1 := by
  have h7 : ∀ d ∈ fiveDetections, d.length = 7 := by
    simp [fiveDetections, personRecord]
  obtain ⟨s, hs, _, _, hpos⟩ :=
    C1_closest_is_first_largest frame640x480 (1 / 100) fiveDetections h7
  have hex : ∃ d ∈ fiveDetections, goodPerson (1 / 100) d ∧
      (field d 5 * frame640x480.cols - field d 3 * frame640x480.cols) *
        (field d 6 * frame640x480.rows - field d 4 * frame640x480.rows) > -1 :=
    ⟨personRecord (9 / 10) (1 / 10) (1 / 10) (5 / 10) (2 / 10), by simp [fiveDetections], by
      norm_num [goodPerson, isPerson, personRecord, field, static_cast_int, PERSON_LABEL,
        PERSON_GOOD_CONFIDENCE_TH, frame640x480]⟩
  obtain ⟨k, d, hid, hk, hg, hmax, hfirst⟩ := hpos hex
  refine ⟨h7, s, hs, ?_⟩
  have hB := hmax (personRecord (8 / 10) (1 / 10) (1 / 10) (3 / 10) (5 / 10))
    (by simp [fiveDetections])
    (by norm_num [goodPerson, isPerson, personRecord, field, static_cast_int, PERSON_LABEL,
      PERSON_GOOD_CONFIDENCE_TH])
  rcases k with _ | _ | _ | _ | _ | k
  · -- index 0 has area 12288, below the 24576 of index 1
    simp only [fiveDetections, List.getElem?_cons_zero, Option.some.injEq] at hk
    subst hk
    norm_num [personRecord, field, frame640x480] at hB
  · rw [hid]; rfl
  · -- index 2 ties with index 1, which comes first
    have h1 := hfirst 1 (personRecord (8 / 10) (1 / 10) (1 / 10) (3 / 10) (5 / 10))
      (by norm_num) (by simp [fiveDetections])
      (by norm_num [goodPerson, isPerson, personRecord, field, static_cast_int, PERSON_LABEL,
        PERSON_GOOD_CONFIDENCE_TH])
    simp only [fiveDetections, List.getElem?_cons_succ, List.getElem?_cons_zero,
      Option.some.injEq] at hk
    subst hk
    norm_num [personRecord, field, frame640x480] at h1
  · -- index 3 is not a person
    simp only [fiveDetections, List.getElem?_cons_succ, List.getElem?_cons_zero,
      Option.some.injEq] at hk
    subst hk
    norm_num [goodPerson, isPerson, field, static_cast_int, PERSON_LABEL] at hg
  · -- index 4 has score 0.4
    simp only [fiveDetections, List.getElem?_cons_succ, List.getElem?_cons_zero,
      Option.some.injEq] at hk
    subst hk
    norm_num [goodPerson, isPerson, personRecord, field, static_cast_int, PERSON_LABEL,
      PERSON_GOOD_CONFIDENCE_TH] at hg
  · simp [fiveDetections] at hk

/-- Counterexample to C1 as stated: two person detections of score 0.9 in a 640x480
frame, one with `xmax < xmin` and one with `ymax < ymin` (projected area -12288 each), are
good person detections, yet the loop leaves `closest_person_detection_id` at -1, which is
no index of the list. -/
theorem C1_counterexample_inverted_box :
    (∀ d ∈ [personRecord (9 / 10) (3 / 10) (1 / 10) (1 / 10) (3 / 10),
        personRecord (9 / 10) (1 / 10) (3 / 10) (3 / 10) (1 / 10)],
      d.length = 7 ∧ goodPerson (1 / 100) d ∧
      (field d 5 * frame640x480.cols - field d 3 * frame640x480.cols) *
        (field d 6 * frame640x480.rows - field d 4 * frame640x480.rows) = -12288) ∧
    (selectionLoop frame640x480 (1 / 100)
        [personRecord (9 / 10) (3 / 10) (1 / 10) (1 / 10) (3 / 10),
          personRecord (9 / 10) (1 / 10) (3 / 10) (3 / 10) (1 / 10)] 0 Selection.start).map
      Selection.closest_person_detection_id = some (-1) := by
  constructor
  · intro d hd
    simp only [List.mem_cons, List.mem_singleton, List.not_mem_nil, or_false] at hd
    rcases hd with rfl | rfl <;>
      norm_num [goodPerson, isPerson, personRecord, field, static_cast_int, PERSON_LABEL,
        PERSON_GOOD_CONFIDENCE_TH, frame640x480]
  · norm_num [selectionLoop, loopBody, personRecord, field, static_cast_int, PERSON_LABEL,
      PERSON_GOOD_CONFIDENCE_TH, this_region, Selection.start, frame640x480]

/-- C2: on a frame processed while `tracker_initialised` is false and a closest person
detection exists, the only call made is one `tracker.Init` with the unclamped pixel box
`(xmin*cols, ymin*rows, xmax*cols, ymax*rows)` of the closest detection (no
`tracker.Track`), and `tracker_initialised` is left true; a single person detection of
score 0.9 and box (0.1,0.1,0.3,0.3) in a 640x480 frame initialises the tracker to
(64,48,192,144). -/
theorem C2_initialization (g : Globals) (img : Mat) (detections : List (List ℚ))
    (bbox_estimate : BoundingBox) (confidence_threshold : ℚ) (s : Selection)
    (hne : img.empty = false)
    (hs : selectionLoop img confidence_threshold detections 0 Selection.start = some s)
    (hc : s.closest_person_detection_id ≠ -1) :
    (∃ (k : Nat) (d : List ℚ), s.closest_person_detection_id = (k : Int) ∧
      detections[k]? = some d ∧
      DetectionTrackingProcessFrame g img detections bbox_estimate confidence_threshold false =
        some { effects := [Effect.Init
                 { x1_ := field d 3 * img.cols, y1_ := field d 4 * img.rows,
                   x2_ := field d 5 * img.cols, y2_ := field d 6 * img.rows }],
               tracker_initialised := true, globals := g }) ∧
    (confidence_threshold ≤ 9 / 10 →
      DetectionTrackingProcessFrame g frame640x480
          [personRecord (9 / 10) (1 / 10) (1 / 10) (3 / 10) (3 / 10)] bbox_estimate
          confidence_threshold false =
        some { effects := [Effect.Init { x1_ := 64, y1_ := 48, x2_ := 192, y2_ := 144 }],
               tracker_initialised := true, globals := g }) := by
  constructor
  · obtain ⟨k, d, hid, hk, _, hget⟩ := closest_lookup img confidence_threshold detections s hs hc
    refine ⟨k, d, hid, hk, ?_⟩
    rw [frame_initializing g img detections bbox_estimate confidence_threshold s hne hs hc, hget]
    rfl
  · intro hct
    norm_num [DetectionTrackingProcessFrame, frame640x480, personRecord, Mat.empty,
      selectionLoop, loopBody, field, Selection.start, static_cast_int, this_region,
      PERSON_LABEL, PERSON_GOOD_CONFIDENCE_TH, pixelBox, hct]

/-- Witness of C2: the scenario frame. -/
theorem C2_initialization_witness :
    frame640x480.empty = false ∧
    selectionLoop frame640x480 (1 / 100)
        [personRecord (9 / 10) (1 / 10) (1 / 10) (3 / 10) (3 / 10)] 0 Selection.start =
      some { closest_person_detection_id := 0, max_region := 12288,
             best_person_confidence := 9 / 10 } ∧
    DetectionTrackingProcessFrame initialGlobals frame640x480
        [personRecord (9 / 10) (1 / 10) (1 / 10) (3 / 10) (3 / 10)] ⟨0, 0, 0, 0⟩ (1 / 100) false =
      some { effects := [Effect.Init { x1_ := 64, y1_ := 48, x2_ := 192, y2_ := 144 }],
             tracker_initialised := true, globals := initialGlobals } :=
  have h1 : frame640x480.empty = false := by decide
  have h2 : selectionLoop frame640x480 (1 / 100)
      [personRecord (9 / 10) (1 / 10) (1 / 10) (3 / 10) (3 / 10)] 0 Selection.start =
      some { closest_person_detection_id := 0, max_region := 12288,
             best_person_confidence := 9 / 10 } := by
    norm_num [frame640x480, personRecord, selectionLoop, loopBody, field, Selection.start,
      static_cast_int, this_region, PERSON_LABEL, PERSON_GOOD_CONFIDENCE_TH]
  ⟨h1, h2, (C2_initialization initialGlobals frame640x480 _ ⟨0, 0, 0, 0⟩ (1 / 100) _ h1 h2
    (by decide)).2 (by norm_num)⟩

/-- C3: on a frame processed while the tracker is initialised and a closest person
detection `[image_id, label, score, xmin, ymin, xmax, ymax]` exists, `tracker.Track` is
called, and then `tracker.Init` is called with the pixel box
`(xmin*cols, ymin*rows, xmax*cols, ymax*rows)` of the closest detection if and only if
the IOU of the tracker estimate and that box is below 0.7; at IOU 0.7 or above the only
tracker call is `Track`.  `DetectionTrackingDisagree` returns true exactly when the IOU is
strictly below 0.7. -/
theorem C3_reinit_iff_disagree (g : Globals) (img : Mat) (detections : List (List ℚ))
    (bbox_estimate : BoundingBox) (confidence_threshold : ℚ) (s : Selection)
    (hne : img.empty = false)
    (hs : selectionLoop img confidence_threshold detections 0 Selection.start = some s)
    (hc : s.closest_person_detection_id ≠ -1) :
    (∃ (k : Nat) (d : List ℚ) (o : Outcome), s.closest_person_detection_id = (k : Int) ∧
      detections[k]? = some d ∧
      DetectionTrackingProcessFrame g img detections bbox_estimate confidence_threshold true =
        some o ∧
      o.tracker_initialised = true ∧
      (bbox_estimate.compute_IOU
          { x1_ := field d 3 * img.cols, y1_ := field d 4 * img.rows,
            x2_ := field d 5 * img.cols, y2_ := field d 6 * img.rows } < 7 / 10 →
        trackerCalls o.effects =
          [Effect.Track,
           Effect.Init { x1_ := field d 3 * img.cols, y1_ := field d 4 * img.rows,
                         x2_ := field d 5 * img.cols, y2_ := field d 6 * img.rows }]) ∧
      (¬ bbox_estimate.compute_IOU
          { x1_ := field d 3 * img.cols, y1_ := field d 4 * img.rows,
            x2_ := field d 5 * img.cols, y2_ := field d 6 * img.rows } < 7 / 10 →
        trackerCalls o.effects = [Effect.Track])) ∧
    (∀ a b : BoundingBox, DetectionTrackingDisagree a b = true ↔ a.compute_IOU b < 7 / 10) := by
  refine ⟨?_, fun a b => disagree_iff a b⟩
  obtain ⟨k, d, hid, hk, _, hget⟩ := closest_lookup img confidence_threshold detections s hs hc
  refine ⟨k, d, _, hid, hk,
    frame_tracking g img detections bbox_estimate confidence_threshold s hne hs hc, rfl, ?_, ?_⟩
  · intro hlt
    have hd : DetectionTrackingDisagree bbox_estimate (pixelBox img d) = true :=
      (disagree_iff _ _).mpr hlt
    rw [hget, if_pos hd]
    exact (calls_of_track_frame _ _ (isSend_ite _ _ _ _ _ _ _ _ _ _ _)
      (fun x hx => by rw [List.mem_singleton.mp hx]; rfl)).1
  · intro hge
    have hd : ¬ DetectionTrackingDisagree bbox_estimate (pixelBox img d) = true :=
      fun h => hge ((disagree_iff _ _).mp h)
    rw [hget, if_neg hd]
    exact (calls_of_track_frame _ _ (isSend_ite _ _ _ _ _ _ _ _ _ _ _)
      (fun x hx => by simp at hx)).1

/-- Witness of C3: with the five detections the closest one is at index 1, of pixel box
(64,48,192,240); against the tracker estimate (0,0,600,480) the IOU is 24576/288000, so
the tracker calls are `Track` and then `Init (64,48,192,240)`. -/
theorem C3_reinit_iff_disagree_witness :
    frame640x480.empty = false ∧
    selectionLoop frame640x480 (1 / 100) fiveDetections 0 Selection.start =
      some { closest_person_detection_id := 1, max_region := 24576,
             best_person_confidence := 9 / 10 } ∧
    ∃ o, DetectionTrackingProcessFrame initialGlobals frame640x480 fiveDetections
        ⟨0, 0, 600, 480⟩ (1 / 100) true = some o ∧
      trackerCalls o.effects = [Effect.Track, Effect.Init ⟨64, 48, 192, 240⟩] := by
  have h1 : frame640x480.empty = false := by decide
  have h2 : selectionLoop frame640x480 (1 / 100) fiveDetections 0 Selection.start =
      some { closest_person_detection_id := 1, max_region := 24576,
             best_person_confidence := 9 / 10 } := by
    norm_num [frame640x480, fiveDetections, personRecord, selectionLoop, loopBody, field,
      Selection.start, static_cast_int, this_region, PERSON_LABEL, PERSON_GOOD_CONFIDENCE_TH]
  obtain ⟨⟨k, d, o, hid, hk, ho, _, hre, _⟩, _⟩ :=
    C3_reinit_iff_disagree initialGlobals frame640x480 fiveDetections ⟨0, 0, 600, 480⟩
      (1 / 100) _ h1 h2 (by decide)
  have hk1 : k = 1 := by
    have : ((1 : Nat) : Int) = (k : Int) := hid
    exact (Int.ofNat_inj.mp this).symm
  subst hk1
  simp only [fiveDetections, List.getElem?_cons_succ, List.getElem?_cons_zero,
    Option.some.injEq] at hk
  subst hk
  refine ⟨h1, h2, o, ho, ?_⟩
  have hiou : BoundingBox.compute_IOU ⟨0, 0, 600, 480⟩
      { x1_ := field (personRecord (8 / 10) (1 / 10) (1 / 10) (3 / 10) (5 / 10)) 3 *
          frame640x480.cols,
        y1_ := field (personRecord (8 / 10) (1 / 10) (1 / 10) (3 / 10) (5 / 10)) 4 *
          frame640x480.rows,
        x2_ := field (personRecord (8 / 10) (1 / 10) (1 / 10) (3 / 10) (5 / 10)) 5 *
          frame640x480.cols,
        y2_ := field (personRecord (8 / 10) (1 / 10) (1 / 10) (3 / 10) (5 / 10)) 6 *
          frame640x480.rows } < 7 / 10 := by
    norm_num [BoundingBox.compute_IOU, BoundingBox.compute_intersection,
      BoundingBox.compute_area, personRecord, field, frame640x480]
  rw [hre hiou]
  norm_num [personRecord, field, frame640x480]

/-- C4: on a frame processed while the tracker is initialised and no closest detection
exists, with `float` scores, if some person detection with score >= confidence_threshold
has a score >= 0.3 (that is, bestPersonScore >= 0.3, the boundary included; `0.3` read as
3/10 or as the `double` literal of line 57), the frame takes the Degraded branch:
`tracker.Track` is called once, `tracker.Init` is not called, and the one command is
computed from the tracker estimate: the stop command when the test of line 392 holds,
else the turn command with gain 6.  On a frame of fewer than 2^31 pixels that test is
`area / (cols * rows) > 0.6`. -/
theorem C4_degraded_at_existence_threshold (g : Globals) (img : Mat)
    (detections : List (List ℚ)) (bbox_estimate : BoundingBox) (confidence_threshold : ℚ)
    (s : Selection) (threshold : ℚ) (hne : img.empty = false)
    (hs : selectionLoop img confidence_threshold detections 0 Selection.start = some s)
    (hc : s.closest_person_detection_id = -1)
    (hfloat : ∀ d ∈ detections, isFloat (field d 2))
    (hth : threshold = 3 / 10 ∨ threshold = doubleLiteral_0_3)
    (hex : ∃ d ∈ detections, isPerson d ∧ field d 2 ≥ confidence_threshold ∧
      field d 2 ≥ threshold) :
    DetectionTrackingProcessFrame g img detections bbox_estimate confidence_threshold true =
      some { effects := [Effect.Track,
               if stop_area_exceeded img bbox_estimate = true then
                 Effect.SendtoController g.turnval g.speedval g.sitval 1 g.walkval
               else
                 Effect.SendtoController
                   (((bbox_estimate.x1_ + bbox_estimate.x2_) / (img.cols : ℚ) / 2 - 1 / 2) * 6)
                   g.speedval g.sitval g.standval 1],
             tracker_initialised := true, globals := g } ∧
    (img.cols * img.rows < 2147483648 →
      (stop_area_exceeded img bbox_estimate = true ↔
        bbox_estimate.compute_area / ((img.cols * img.rows : Nat) : ℚ) > 6 / 10)) := by
  refine ⟨?_, fun hsmall => stop_area_exceeded_iff img bbox_estimate hne hsmall⟩
  obtain ⟨d, hd, hp, hct, hge⟩ := hex
  have hlit : doubleLiteral_0_3 ≤ field d 2 := by
    rcases hth with h | h
    · rw [h] at hge
      exact le_trans (by norm_num [doubleLiteral_0_3]) hge
    · rw [h] at hge
      exact hge
  have hgt : field d 2 > 3 / 10 := float_above_three_tenths _ (hfloat d hd) hlit
  have hbest : s.best_person_confidence > PERSON_EXIST_CONFIDENCE_TH :=
    (best_gt_iff img confidence_threshold detections s hs (3 / 10) (by norm_num)).mpr
      ⟨d, hd, hp, hct, hgt⟩
  exact frame_degraded g img detections bbox_estimate confidence_threshold s hne hs hc hbest

/-- Witness of C4: the boundary case.  The one person detection has score 0.3f, the
`float` nearest to 0.3 (5033165 / 2^24); the frame takes the Degraded branch and, the
estimate (64,48,192,144) covering 4% of the 640x480 frame, sends the turn -9/5. -/
theorem C4_degraded_at_existence_threshold_witness :
    frame640x480.empty = false ∧
    selectionLoop frame640x480 (1 / 100)
        [personRecord (5033165 / 16777216) (1 / 10) (1 / 10) (3 / 10) (3 / 10)] 0
        Selection.start =
      some { closest_person_detection_id := -1, max_region := -1,
             best_person_confidence := 5033165 / 16777216 } ∧
    isFloat (5033165 / 16777216) ∧
    DetectionTrackingProcessFrame initialGlobals frame640x480
        [personRecord (5033165 / 16777216) (1 / 10) (1 / 10) (3 / 10) (3 / 10)]
        ⟨64, 48, 192, 144⟩ (1 / 100) true =
      some { effects := [Effect.Track, Effect.SendtoController (-9 / 5) 0 0 0 1],
             tracker_initialised := true, globals := initialGlobals } := by
  have h1 : frame640x480.empty = false := by decide
  have h2 : selectionLoop frame640x480 (1 / 100)
      [personRecord (5033165 / 16777216) (1 / 10) (1 / 10) (3 / 10) (3 / 10)] 0
      Selection.start =
      some { closest_person_detection_id := -1, max_region := -1,
             best_person_confidence := 5033165 / 16777216 } := by
    norm_num [frame640x480, personRecord, selectionLoop, loopBody, field, Selection.start,
      static_cast_int, this_region, PERSON_LABEL, PERSON_GOOD_CONFIDENCE_TH]
  have h3 : isFloat (5033165 / 16777216) := ⟨5033165, -24, by norm_num, by norm_num [zpow_neg]⟩
  have hfloat : ∀ d ∈ [personRecord (5033165 / 16777216) (1 / 10) (1 / 10) (3 / 10) (3 / 10)],
      isFloat (field d 2) := by
    intro d hd
    rw [List.mem_singleton.mp hd]
    exact h3
  have hsmall : frame640x480.cols * frame640x480.rows < 2147483648 := by decide
  have key := C4_degraded_at_existence_threshold initialGlobals frame640x480
    [personRecord (5033165 / 16777216) (1 / 10) (1 / 10) (3 / 10) (3 / 10)] ⟨64, 48, 192, 144⟩
    (1 / 100) _ (3 / 10) h1 h2 rfl hfloat (Or.inl rfl)
    ⟨_, List.mem_singleton.mpr rfl, by
      norm_num [isPerson, personRecord, field, static_cast_int, PERSON_LABEL]⟩
  have hstop : ¬ stop_area_exceeded frame640x480 ⟨64, 48, 192, 144⟩ = true := by
    rw [key.2 hsmall]
    norm_num [BoundingBox.compute_area, frame640x480]
  refine ⟨h1, h2, h3, ?_⟩
  rw [key.1, if_neg hstop]
  norm_num [frame640x480, initialGlobals]

/-- C5 (as amended): a call that does not abort sends exactly one command to the
controller in the Tracking, Degraded and Idle branches, and sends none in the
Initializing branch (tracker not initialised and a closest detection exists). -/
theorem C5_one_command_unless_initializing (g : Globals) (img : Mat)
    (detections : List (List ℚ)) (bbox_estimate : BoundingBox) (confidence_threshold : ℚ)
    (tracker_initialised : Bool) (s : Selection) (hne : img.empty = false)
    (hs : selectionLoop img confidence_threshold detections 0 Selection.start = some s) :
    ∃ o, DetectionTrackingProcessFrame g img detections bbox_estimate confidence_threshold
        tracker_initialised = some o ∧
      (sentCommands o.effects).length =
        if tracker_initialised = false ∧ s.closest_person_detection_id ≠ -1 then 0 else 1 := by
  by_cases hc : s.closest_person_detection_id = -1
  · by_cases hb : tracker_initialised = true ∧
        s.best_person_confidence > PERSON_EXIST_CONFIDENCE_TH
    · obtain ⟨hi, hb⟩ := hb
      subst hi
      refine ⟨_, frame_degraded g img detections bbox_estimate confidence_threshold s hne hs
        hc hb, ?_⟩
      have h := (calls_of_steered_frame g img bbox_estimate 6 []
        (fun x hx => by simp at hx)).2
      simp only [List.nil_append] at h
      simp [h, hc]
    · refine ⟨_, frame_idle g img detections bbox_estimate confidence_threshold
        tracker_initialised s hne hs hc (fun hi hgt => hb ⟨hi, hgt⟩), ?_⟩
      simp [sentCommands, Effect.isSend, hc]
  · cases tracker_initialised
    · refine ⟨_, frame_initializing g img detections bbox_estimate confidence_threshold s hne
        hs hc, ?_⟩
      simp [sentCommands, Effect.isSend, hc]
    · refine ⟨_, frame_tracking g img detections bbox_estimate confidence_threshold s hne hs
        hc, ?_⟩
      have h := fun r hr => (calls_of_steered_frame g img bbox_estimate 2 r hr).2
      split
      · rw [h _ (fun x hx => by rw [List.mem_singleton.mp hx]; rfl)]
        simp
      · rw [h _ (fun x hx => by simp at hx)]
        simp

/-- Witness of C5: the Idle frame with no detection sends one command. -/
theorem C5_one_command_unless_initializing_witness :
    frame640x480.empty = false ∧
    selectionLoop frame640x480 (1 / 100) [] 0 Selection.start = some Selection.start ∧
    ∃ o, DetectionTrackingProcessFrame initialGlobals frame640x480 [] ⟨0, 0, 0, 0⟩ (1 / 100)
        false = some o ∧
      (sentCommands o.effects).length =
        if false = false ∧ Selection.start.closest_person_detection_id ≠ -1 then 0 else 1 :=
  have h1 : frame640x480.empty = false := by decide
  have h2 : selectionLoop frame640x480 (1 / 100) [] 0 Selection.start =
      some Selection.start := rfl
  ⟨h1, h2, C5_one_command_unless_initializing initialGlobals frame640x480 [] ⟨0, 0, 0, 0⟩
    (1 / 100) false Selection.start h1 h2⟩

/-- Counterexample to C5 as stated: the frame that initialises the tracker (tracker not
initialised, one person detection of score 0.9, 640x480 frame with data, all records of 7
fields) does not abort and sends no command to the controller. -/
theorem C5_counterexample_initializing_sends_nothing :
    (DetectionTrackingProcessFrame initialGlobals frame640x480
        [personRecord (9 / 10) (1 / 10) (1 / 10) (3 / 10) (3 / 10)] ⟨0, 0, 0, 0⟩ (1 / 100)
        false).map (fun o => (sentCommands o.effects).length) = some 0 := by
  norm_num [DetectionTrackingProcessFrame, frame640x480, personRecord, Mat.empty,
    selectionLoop, loopBody, field, Selection.start, static_cast_int, this_region,
    PERSON_LABEL, PERSON_GOOD_CONFIDENCE_TH, sentCommands, Effect.isSend]

/-- C8: on any frame of any session (any frames processed before it by the frame loop)
that takes the Idle branch (tracker uninitialised with no closest detection, or tracker
initialised with no closest detection and best person score not above 0.3) the globals
still hold their initial values, the only call made is one `SendtoController` with turn 0,
speed 0, sit 0, stand 1, walk 0, neither `tracker.Init` nor `tracker.Track` is called, and
`tracker_initialised` is unchanged. -/
theorem C8_idle_command (confidence_threshold : ℚ) (earlier : List FrameInput) (o : Outcome)
    (f : FrameInput) (s : Selection)
    (hrun : processDetectionTracking confidence_threshold earlier = some o)
    (hne : f.img.empty = false)
    (hs : selectionLoop f.img confidence_threshold f.detections 0 Selection.start = some s)
    (hidle : (o.tracker_initialised = false ∧ s.closest_person_detection_id = -1) ∨
      (o.tracker_initialised = true ∧ s.closest_person_detection_id = -1 ∧
        ¬ s.best_person_confidence > 3 / 10)) :
    o.globals = initialGlobals ∧
    DetectionTrackingProcessFrame o.globals f.img f.detections f.bbox_estimate
        confidence_threshold o.tracker_initialised =
      some { effects := [Effect.SendtoController 0 0 0 1 0],
             tracker_initialised := o.tracker_initialised, globals := initialGlobals } := by
  have hg : o.globals = initialGlobals :=
    frameLoop_globals confidence_threshold earlier _ o hrun
  have hc : s.closest_person_detection_id = -1 := by
    rcases hidle with h | h
    · exact h.2
    · exact h.2.1
  have hb : o.tracker_initialised = true →
      ¬ s.best_person_confidence > PERSON_EXIST_CONFIDENCE_TH := by
    intro hi
    rcases hidle with h | h
    · rw [h.1] at hi; cases hi
    · exact h.2.2
  refine ⟨hg, ?_⟩
  rw [frame_idle o.globals f.img f.detections f.bbox_estimate confidence_threshold
    o.tracker_initialised s hne hs hc hb, hg]
  rfl

/-- Witness of C8: the second frame of a session, after a frame that initialised the
tracker, has no detection. -/
theorem C8_idle_command_witness :
    processDetectionTracking (1 / 100)
        [⟨frame640x480, [personRecord (9 / 10) (1 / 10) (1 / 10) (3 / 10) (3 / 10)],
          ⟨0, 0, 0, 0⟩⟩] =
      some { effects := [Effect.Init ⟨64, 48, 192, 144⟩], tracker_initialised := true,
             globals := initialGlobals } ∧
    DetectionTrackingProcessFrame initialGlobals frame640x480 [] ⟨64, 48, 192, 144⟩ (1 / 100)
        true =
      some { effects := [Effect.SendtoController 0 0 0 1 0], tracker_initialised := true,
             globals := initialGlobals } :=
  have h0 : processDetectionTracking (1 / 100)
      [⟨frame640x480, [personRecord (9 / 10) (1 / 10) (1 / 10) (3 / 10) (3 / 10)],
        ⟨0, 0, 0, 0⟩⟩] =
      some { effects := [Effect.Init ⟨64, 48, 192, 144⟩], tracker_initialised := true,
             globals := initialGlobals } := by
    norm_num [processDetectionTracking, frameLoop, DetectionTrackingProcessFrame, frame640x480,
      personRecord, Mat.empty, selectionLoop, loopBody, field, Selection.start,
      static_cast_int, this_region, PERSON_LABEL, PERSON_GOOD_CONFIDENCE_TH, pixelBox]
  ⟨h0, (C8_idle_command (1 / 100) _ _ ⟨frame640x480, [], ⟨64, 48, 192, 144⟩⟩ Selection.start
    h0 (by decide) rfl (Or.inr ⟨rfl, rfl, by norm_num [Selection.start]⟩)).2⟩

/-- C9: on a list of 7-field records none of which has score >= confidence_threshold, for
either value of `tracker_initialised`, the loop selects no closest detection (id -1),
leaves the best person confidence at -1 (below 0.3), and the frame takes the Idle branch:
one command is sent, with the globals' turn, speed, sit and walk and stand 1 (walk 0 with
the globals at their initial values), the tracker is not called and `tracker_initialised`
is unchanged. -/
theorem C9_nothing_above_confidence_threshold (g : Globals) (img : Mat)
    (detections : List (List ℚ)) (bbox_estimate : BoundingBox) (confidence_threshold : ℚ)
    (tracker_initialised : Bool) (hne : img.empty = false)
    (h7 : ∀ d ∈ detections, d.length = 7)
    (hlow : ∀ d ∈ detections, ¬ field d 2 ≥ confidence_threshold) :
    (∃ s, selectionLoop img confidence_threshold detections 0 Selection.start = some s ∧
      s.closest_person_detection_id = -1 ∧ s.best_person_confidence < 3 / 10) ∧
    DetectionTrackingProcessFrame g img detections bbox_estimate confidence_threshold
        tracker_initialised =
      some { effects := [Effect.SendtoController g.turnval g.speedval g.sitval 1 g.walkval],
             tracker_initialised := tracker_initialised, globals := g } ∧
    DetectionTrackingProcessFrame initialGlobals img detections bbox_estimate
        confidence_threshold tracker_initialised =
      some { effects := [Effect.SendtoController 0 0 0 1 0],
             tracker_initialised := tracker_initialised, globals := initialGlobals } := by
  have hs := selectionLoop_below img confidence_threshold detections h7 hlow
  have hb : tracker_initialised = true →
      ¬ Selection.start.best_person_confidence > PERSON_EXIST_CONFIDENCE_TH := by
    intro _
    norm_num [Selection.start, PERSON_EXIST_CONFIDENCE_TH]
  refine ⟨⟨_, hs, rfl, by norm_num [Selection.start]⟩, ?_, ?_⟩
  · exact frame_idle g img detections bbox_estimate confidence_threshold tracker_initialised _
      hne hs rfl hb
  · exact frame_idle initialGlobals img detections bbox_estimate confidence_threshold
      tracker_initialised _ hne hs rfl hb

/-- Witness of C9: a person detection of score 0.4 under a confidence threshold 0.5, with
the tracker initialised. -/
theorem C9_nothing_above_confidence_threshold_witness :
    frame640x480.empty = false ∧
    (∀ d ∈ [personRecord (4 / 10) (1 / 10) (1 / 10) (3 / 10) (3 / 10)], d.length = 7) ∧
    (∀ d ∈ [personRecord (4 / 10) (1 / 10) (1 / 10) (3 / 10) (3 / 10)],
      ¬ field d 2 ≥ 5 / 10) ∧
    DetectionTrackingProcessFrame initialGlobals frame640x480
        [personRecord (4 / 10) (1 / 10) (1 / 10) (3 / 10) (3 / 10)] ⟨64, 48, 192, 144⟩
        (5 / 10) true =
      some { effects := [Effect.SendtoController 0 0 0 1 0], tracker_initialised := true,
             globals := initialGlobals } :=
  have h1 : frame640x480.empty = false := by decide
  have h2 : ∀ d ∈ [personRecord (4 / 10) (1 / 10) (1 / 10) (3 / 10) (3 / 10)],
      d.length = 7 := by
    simp [personRecord]
  have h3 : ∀ d ∈ [personRecord (4 / 10) (1 / 10) (1 / 10) (3 / 10) (3 / 10)],
      ¬ field d 2 ≥ 5 / 10 := by
    intro d hd
    rw [List.mem_singleton.mp hd]
    norm_num [personRecord, field]
  ⟨h1, h2, h3, (C9_nothing_above_confidence_threshold initialGlobals frame640x480 _
    ⟨64, 48, 192, 144⟩ (5 / 10) true h1 h2 h3).2.2⟩

/-- C10 (as amended): on a frame of fewer than 2^31 pixels in the Tracking or Degraded
branch whose tracker estimate has area / (frame width * frame height) at most 0.6, one
command is sent, and its turn value is negative when x1 + x2 < frameWidth and positive
when x1 + x2 > frameWidth. -/
theorem C10_turn_sign_when_not_stopped (g : Globals) (img : Mat) (detections : List (List ℚ))
    (bbox_estimate : BoundingBox) (confidence_threshold : ℚ) (s : Selection)
    (hne : img.empty = false) (hsmall : img.cols * img.rows < 2147483648)
    (hs : selectionLoop img confidence_threshold detections 0 Selection.start = some s)
    (hreg : s.closest_person_detection_id ≠ -1 ∨ s.best_person_confidence > 3 / 10)
    (hfrac : bbox_estimate.compute_area / ((img.cols * img.rows : Nat) : ℚ) ≤ 6 / 10) :
    ∃ (o : Outcome) (turn speed : ℚ) (sit stand walk : Int),
      DetectionTrackingProcessFrame g img detections bbox_estimate confidence_threshold true =
        some o ∧
      sentCommands o.effects = [Effect.SendtoController turn speed sit stand walk] ∧
      (bbox_estimate.x1_ + bbox_estimate.x2_ < (img.cols : ℚ) → turn < 0) ∧
      (bbox_estimate.x1_ + bbox_estimate.x2_ > (img.cols : ℚ) → turn > 0) := by
  have hf : ¬ stop_area_exceeded img bbox_estimate = true := fun h =>
    absurd ((stop_area_exceeded_iff img bbox_estimate hne hsmall).mp h) (not_lt.mpr hfrac)
  obtain ⟨o, ho, _, _, hsent⟩ := sent_of_tracking_or_degraded g img detections bbox_estimate
    confidence_threshold s hne hs hreg
  rw [if_neg hf] at hsent
  have hk : (0 : ℚ) < if s.closest_person_detection_id ≠ -1 then 2 else 6 := by
    split <;> norm_num
  have hsign := turn_sign (bbox_estimate.x1_ + bbox_estimate.x2_) (img.cols : ℚ) _
    (cols_pos_of_not_empty img hne) hk
  exact ⟨o, _, _, _, _, _, ho, hsent, hsign.1, hsign.2⟩

/-- Witness of C10: a Tracking frame with estimate (64,48,192,144), left of centre
(64 + 192 < 640) and covering 4% of the frame: the turn sent is negative. -/
theorem C10_turn_sign_when_not_stopped_witness :
    frame640x480.empty = false ∧
    frame640x480.cols * frame640x480.rows < 2147483648 ∧
    selectionLoop frame640x480 (1 / 100)
        [personRecord (9 / 10) (1 / 10) (1 / 10) (3 / 10) (3 / 10)] 0 Selection.start =
      some { closest_person_detection_id := 0, max_region := 12288,
             best_person_confidence := 9 / 10 } ∧
    BoundingBox.compute_area ⟨64, 48, 192, 144⟩ /
        ((frame640x480.cols * frame640x480.rows : Nat) : ℚ) = 4 / 100 ∧
    ∃ (o : Outcome) (turn speed : ℚ) (sit stand walk : Int),
      DetectionTrackingProcessFrame initialGlobals frame640x480
          [personRecord (9 / 10) (1 / 10) (1 / 10) (3 / 10) (3 / 10)] ⟨64, 48, 192, 144⟩
          (1 / 100) true = some o ∧
      sentCommands o.effects = [Effect.SendtoController turn speed sit stand walk] ∧
      turn < 0 := by
  have h1 : frame640x480.empty = false := by decide
  have hsmall : frame640x480.cols * frame640x480.rows < 2147483648 := by decide
  have h2 : selectionLoop frame640x480 (1 / 100)
      [personRecord (9 / 10) (1 / 10) (1 / 10) (3 / 10) (3 / 10)] 0 Selection.start =
      some { closest_person_detection_id := 0, max_region := 12288,
             best_person_confidence := 9 / 10 } := by
    norm_num [frame640x480, personRecord, selectionLoop, loopBody, field, Selection.start,
      static_cast_int, this_region, PERSON_LABEL, PERSON_GOOD_CONFIDENCE_TH]
  have h3 : BoundingBox.compute_area ⟨64, 48, 192, 144⟩ /
      ((frame640x480.cols * frame640x480.rows : Nat) : ℚ) = 4 / 100 := by
    norm_num [BoundingBox.compute_area, frame640x480]
  obtain ⟨o, turn, speed, sit, stand, walk, ho, hsent, hneg, _⟩ :=
    C10_turn_sign_when_not_stopped initialGlobals frame640x480 _ ⟨64, 48, 192, 144⟩ (1 / 100)
      _ h1 hsmall h2 (Or.inl (by decide)) (by rw [h3]; norm_num)
  exact ⟨h1, hsmall, h2, h3, o, turn, speed, sit, stand, walk, ho, hsent,
    hneg (by norm_num [frame640x480])⟩

/-- Counterexample to C10 as stated: a Tracking frame (tracker initialised, one person
detection of score 0.9) in a 640x480 frame whose tracker estimate (0,0,600,480) has
x1 + x2 = 600 < 640 and area fraction 0.9375 sends the command with turn 0, which is not
negative. -/
theorem C10_counterexample_stop_branch :
    ((0 : ℚ) + 600 < (frame640x480.cols : ℚ)) ∧
    (DetectionTrackingProcessFrame initialGlobals frame640x480
        [personRecord (9 / 10) (1 / 10) (1 / 10) (3 / 10) (3 / 10)] ⟨0, 0, 600, 480⟩ (1 / 100)
        true).map (fun o => sentCommands o.effects) =
      some [Effect.SendtoController 0 0 0 1 0] := by
  have h1 : frame640x480.empty = false := by decide
  have hsmall : frame640x480.cols * frame640x480.rows < 2147483648 := by decide
  have h2 : selectionLoop frame640x480 (1 / 100)
      [personRecord (9 / 10) (1 / 10) (1 / 10) (3 / 10) (3 / 10)] 0 Selection.start =
      some { closest_person_detection_id := 0, max_region := 12288,
             best_person_confidence := 9 / 10 } := by
    norm_num [frame640x480, personRecord, selectionLoop, loopBody, field, Selection.start,
      static_cast_int, this_region, PERSON_LABEL, PERSON_GOOD_CONFIDENCE_TH]
  have h3 : stop_area_exceeded frame640x480 ⟨0, 0, 600, 480⟩ = true := by
    rw [stop_area_exceeded_iff _ _ h1 hsmall]
    norm_num [BoundingBox.compute_area, frame640x480]
  obtain ⟨o, ho, _, _, hsent⟩ := sent_of_tracking_or_degraded initialGlobals frame640x480 _
    ⟨0, 0, 600, 480⟩ (1 / 100) _ h1 h2 (Or.inl (by decide))
  refine ⟨by norm_num [frame640x480], ?_⟩
  rw [ho, Option.map_some', hsent, if_pos h3]
  rfl

/-! ## `Detector::Detect` -/

/-- On a blob made of 7-float records the copy loop appends, in order, the records whose
first float is not -1. -/
theorem detectLoop_join :
    ∀ (records acc : List (List ℚ)), (∀ r ∈ records, r.length = 7) →
      detectLoop records.length records.flatten acc =
        acc ++ records.filter (fun r => decide (field r 0 ≠ -1))
  | [], acc, _ => by simp [detectLoop]
  | r :: rs, acc, h => by
    have hr : r.length = 7 := h r (List.mem_cons_self _ _)
    have hrs : ∀ x ∈ rs, x.length = 7 := fun x hx => h x (List.mem_cons_of_mem _ hx)
    have hdrop : (r ++ rs.flatten).drop 7 = rs.flatten := by
      rw [← hr]; exact List.drop_left r rs.flatten
    have htake : (r ++ rs.flatten).take 7 = r := by
      rw [← hr]; exact List.take_left r rs.flatten
    have hhead : (r ++ rs.flatten).getD 0 0 = field r 0 := by
      cases r with
      | nil => simp at hr
      | cons a t => simp [field]
    simp only [List.length_cons, List.flatten_cons, detectLoop, hdrop, htake, hhead]
    by_cases h0 : field r 0 = -1
    · rw [if_pos h0, detectLoop_join rs acc hrs]
      simp [List.filter_cons, h0]
    · rw [if_neg h0, detectLoop_join rs (acc ++ [r]) hrs]
      simp [List.filter_cons, h0]

/-- C11 (as amended): on an output blob made of 7-float records, `Detector::Detect`
returns exactly the records whose first field (`image_id`) is not -1, in their original
order: it returns no record with `image_id = -1`, keeps every other record, and every
record it returns has 7 fields.  (The label field is not tested.) -/
theorem C11_detect_drops_image_id_sentinel (records : List (List ℚ))
    (h7 : ∀ r ∈ records, r.length = 7) :
    Detector.Detect records.flatten records.length =
      records.filter (fun r => decide (field r 0 ≠ -1)) ∧
    (∀ r ∈ Detector.Detect records.flatten records.length, field r 0 ≠ -1 ∧ r.length = 7) ∧
    (∀ r ∈ records, field r 0 ≠ -1 → r ∈ Detector.Detect records.flatten records.length) ∧
    (Detector.Detect records.flatten records.length).Sublist records := by
  have e : Detector.Detect records.flatten records.length =
      records.filter (fun r => decide (field r 0 ≠ -1)) := by
    unfold Detector.Detect
    rw [detectLoop_join records [] h7]
    rfl
  rw [e]
  refine ⟨rfl, ?_, ?_, List.filter_sublist _⟩
  · intro r hr
    obtain ⟨hmem, hne⟩ := List.mem_filter.mp hr
    exact ⟨of_decide_eq_true hne, h7 r hmem⟩
  · intro r hr hne
    exact List.mem_filter.mpr ⟨hr, decide_eq_true hne⟩

/-- Witness of C11: a blob of three records, the middle one with `image_id = -1`. -/
theorem C11_detect_drops_image_id_sentinel_witness :
    (∀ r ∈ [personRecord (9 / 10) (1 / 10) (1 / 10) (3 / 10) (3 / 10),
        [-1, 15, 8 / 10, 0, 0, 1, 1], [0, 7, 1 / 2, 0, 0, 1 / 2, 1 / 2]], r.length = 7) ∧
    Detector.Detect
        [personRecord (9 / 10) (1 / 10) (1 / 10) (3 / 10) (3 / 10),
          [-1, 15, 8 / 10, 0, 0, 1, 1], [0, 7, 1 / 2, 0, 0, 1 / 2, 1 / 2]].flatten 3 =
      [personRecord (9 / 10) (1 / 10) (1 / 10) (3 / 10) (3 / 10),
        [0, 7, 1 / 2, 0, 0, 1 / 2, 1 / 2]] :=
  have h : ∀ r ∈ [personRecord (9 / 10) (1 / 10) (1 / 10) (3 / 10) (3 / 10),
      [-1, 15, 8 / 10, 0, 0, 1, 1], [0, 7, 1 / 2, 0, 0, 1 / 2, 1 / 2]], r.length = 7 := by
    simp [personRecord]
  ⟨h, (C11_detect_drops_image_id_sentinel _ h).1.trans (by
    norm_num [List.filter_cons, field, personRecord])⟩

/-- Counterexample to C11 as stated: a record whose label field is -1 (image_id 0) is
returned by `Detector::Detect`, and a record whose label field is 15 (image_id -1) is
dropped. -/
theorem C11_counterexample_label_not_tested :
    Detector.Detect [0, -1, -1, -1, -1, -1, -1] 1 = [[0, -1, -1, -1, -1, -1, -1]] ∧
    Detector.Detect [-1, 15, 9 / 10, 1 / 10, 1 / 10, 3 / 10, 3 / 10] 1 = [] := by
  constructor <;> norm_num [Detector.Detect, detectLoop]

/-! ## Aborts and the lookup of line 314 -/

/-- The loop as a run aborts, in the state it started in, exactly when the loop as a
function yields `none`; otherwise it goes on with the locals the function yields. -/
theorem selectionRun_eq (img : Mat) (ct : ℚ) (next : Machine → Selection → Run) (m : Machine) :
    ∀ (ds : List (List ℚ)) (i : Nat) (s : Selection),
      selectionRun img ct ds i s m next =
        match selectionLoop img ct ds i s with
        | none => Run.aborted m
        | some s' => next m s'
  | [], _, _ => rfl
  | d :: ds, i, s => by
    simp only [selectionRun, selectionLoop]
    cases loopBody img ct i d s with
    | none => rfl
    | some s1 => exact selectionRun_eq img ct next m ds (i + 1) s1

/-- The run form and the function form of the frame function agree: the run aborts in
its start state when the function yields `none`, and otherwise returns with the function's
calls appended and the function's flag. -/
theorem frameRun_eq (g : Globals) (img : Mat) (detections : List (List ℚ))
    (est : BoundingBox) (ct : ℚ) (m : Machine) :
    DetectionTrackingProcessFrameRun g img detections est ct m =
      match DetectionTrackingProcessFrame g img detections est ct m.tracker_initialised with
      | none => Run.aborted m
      | some o =>
        Run.returned { calls := m.calls ++ o.effects,
                       tracker_initialised := o.tracker_initialised } := by
  unfold DetectionTrackingProcessFrameRun DetectionTrackingProcessFrame CHECK
  cases he : img.empty
  · simp only [Bool.not_false, if_true, Bool.false_eq_true, if_false, selectionRun_eq]
    cases selectionLoop img ct detections 0 Selection.start with
    | none => rfl
    | some s =>
      simp only [Machine.call]
      split
      · simp
      · split
        · split <;> split <;> simp
        · split
          · split <;> simp
          · simp
  · simp

/-- The frame function yields `none` exactly on an empty image or a record that does not
have 7 fields. -/
theorem processFrame_none_iff (g : Globals) (img : Mat) (detections : List (List ℚ))
    (est : BoundingBox) (ct : ℚ) (init : Bool) :
    DetectionTrackingProcessFrame g img detections est ct init = none ↔
      (img.empty = true ∨ ∃ d ∈ detections, d.length ≠ 7) := by
  constructor
  · intro h
    by_contra hcon
    simp only [not_or, Bool.not_eq_true, not_exists, not_and, not_not] at hcon
    obtain ⟨hne, h7⟩ := hcon
    obtain ⟨s, hs⟩ := selectionLoop_total img ct detections 0 Selection.start h7
    rw [processFrame_branches g img detections est ct init s hne hs] at h
    split at h
    · cases h
    · split at h
      · cases h
      · split at h <;> cases h
  · rintro (he | ⟨d, hd, hlen⟩)
    · simp [DetectionTrackingProcessFrame, he]
    · unfold DetectionTrackingProcessFrame
      cases hs : selectionLoop img ct detections 0 Selection.start with
      | none => simp
      | some s =>
        exact absurd (selectionLoop_some_length img ct detections 0 Selection.start s hs d hd)
          hlen

/-- C12: a call of `DetectionTrackingProcessFrame`, started in any state, aborts if and
only if the frame image is empty or some record of the detection list does not have 7
fields (whatever the scores and labels); when it aborts, the state is the one it started
in: no `tracker.Init`, `tracker.Track` or `SendtoController` call has been made and
`tracker_initialised` is unchanged. -/
theorem C12_abort_iff_empty_or_malformed (g : Globals) (img : Mat)
    (detections : List (List ℚ)) (bbox_estimate : BoundingBox) (confidence_threshold : ℚ)
    (m : Machine) :
    ((∃ m', DetectionTrackingProcessFrameRun g img detections bbox_estimate
        confidence_threshold m = Run.aborted m') ↔
      (img.empty = true ∨ ∃ d ∈ detections, d.length ≠ 7)) ∧
    (∀ m', DetectionTrackingProcessFrameRun g img detections bbox_estimate
        confidence_threshold m = Run.aborted m' → m' = m) ∧
    (DetectionTrackingProcessFrame g img detections bbox_estimate confidence_threshold
        m.tracker_initialised = none ↔
      (img.empty = true ∨ ∃ d ∈ detections, d.length ≠ 7)) := by
  have hnone := processFrame_none_iff g img detections bbox_estimate confidence_threshold
    m.tracker_initialised
  have hrun := frameRun_eq g img detections bbox_estimate confidence_threshold m
  refine ⟨?_, ?_, hnone⟩
  · rw [← hnone, hrun]
    cases DetectionTrackingProcessFrame g img detections bbox_estimate confidence_threshold
        m.tracker_initialised with
    | none => simp
    | some o => simp
  · intro m' h
    rw [hrun] at h
    cases hf : DetectionTrackingProcessFrame g img detections bbox_estimate
        confidence_threshold m.tracker_initialised with
    | none =>
      rw [hf] at h
      simp only [Run.aborted.injEq] at h
      exact h.symm
    | some o =>
      rw [hf] at h
      cases h

/-- Witness of C12: a frame with data whose detection list holds a 3-field record, in a
session whose tracker is already initialised, aborts with the state unchanged. -/
theorem C12_abort_iff_empty_or_malformed_witness :
    ∃ m', DetectionTrackingProcessFrameRun initialGlobals frame640x480
        [personRecord (9 / 10) (1 / 10) (1 / 10) (3 / 10) (3 / 10), [0, 15, 9 / 10]]
        ⟨64, 48, 192, 144⟩ (1 / 100)
        { calls := [Effect.Init ⟨64, 48, 192, 144⟩], tracker_initialised := true } =
        Run.aborted m' ∧
      m' = { calls := [Effect.Init ⟨64, 48, 192, 144⟩], tracker_initialised := true } :=
  have h := C12_abort_iff_empty_or_malformed initialGlobals frame640x480
    [personRecord (9 / 10) (1 / 10) (1 / 10) (3 / 10) (3 / 10), [0, 15, 9 / 10]]
    ⟨64, 48, 192, 144⟩ (1 / 100)
    { calls := [Effect.Init ⟨64, 48, 192, 144⟩], tracker_initialised := true }
  have hex := h.1.mpr (Or.inr ⟨[0, 15, 9 / 10], by simp, by decide⟩)
  hex.elim fun m' hm' => ⟨m', hm', h.2.1 m' hm'⟩

/-- C13 (the code at the failing inputs): on a 640x480 frame with an empty detection
list, and with a list holding one detection that is not a person, the lookup
`detections[closest_person_detection_id]` of line 314 is made with index -1, which is
not within `0 <= index < detections.size()`. -/
theorem C13_lookup_index_minus_one :
    (∃ i, closestLookupIndex frame640x480 (1 / 100) [] = some i ∧
      ¬ (0 ≤ i ∧ i < (([] : List (List ℚ)).length : Int))) ∧
    (∃ i, closestLookupIndex frame640x480 (1 / 100)
        [[0, 7, 9 / 10, 1 / 10, 1 / 10, 3 / 10, 3 / 10]] = some i ∧
      ¬ (0 ≤ i ∧ i < (([[0, 7, 9 / 10, 1 / 10, 1 / 10, 3 / 10, 3 / 10]] :
        List (List ℚ)).length : Int))) := by
  refine ⟨⟨-1, ?_, by decide⟩, ⟨-1, ?_, by decide⟩⟩
  · norm_num [closestLookupIndex, frame640x480, Mat.empty, selectionLoop, Selection.start]
  · norm_num [closestLookupIndex, frame640x480, Mat.empty, selectionLoop, loopBody, field,
      Selection.start, static_cast_int, this_region, PERSON_LABEL, PERSON_GOOD_CONFIDENCE_TH]

end PersonFollowing
